import Mathlib

/-!
Verification of the vision-models request/response marshaling layer
(vertexai/vision_models/_vision_models.py).

The Python module is embedded shallowly:

* Byte strings are lists of byte values; Python Optional arguments are
  Option; Python exceptions (all ValueError in this module) are modelled
  with Except String carrying the exact message of the source.
* Python dicts are insertion-ordered association lists with unique keys;
  dSet is dict assignment (replace in place when the key exists, append
  otherwise) and dGet is dict.get.
* Python truthiness of optional byte strings and optional strings
  (bool(image_bytes), if negative_prompt: ...) is made explicit with
  truthyBytes and truthyStr: None, empty bytes and the empty string are
  falsy.
* External collaborators are modelled by their contracts: the Cloud
  Storage download is an arbitrary function from the stored URI to bytes
  (Fetcher); PIL pixel decoding is an arbitrary size function; the stdlib
  base64 and hashlib.sha1 primitives are implemented concretely below.
* Remote predict calls are modelled by passing the list of prediction
  objects the endpoint would return as an explicit argument, so that
  everything before the call is independent of it.
-/

set_option maxRecDepth 10000

namespace VisionModels

/-- Byte strings (Python bytes) as lists of byte values. -/
abbrev ByteStr := List Nat

/-- JSON-representable values: the value space of generation-parameter
bags, request instances and request parameters in the source module. -/
inductive JVal where
  | str (s : String)
  | int (n : Int)
  | bool (b : Bool)
  | null
  | arr (elems : List JVal)
  | obj (fields : List (String × JVal))
deriving Repr, BEq

/-- Parameter bags, request instances and request parameter objects are
Python dicts from strings to JSON values: insertion-ordered association
lists with unique keys. -/
abbrev Bag := List (String × JVal)

/-- Python dict lookup d.get(k). -/
def dGet {κ ν : Type} [DecidableEq κ] : List (κ × ν) → κ → Option ν
  | [], _ => none
  | p :: rest, k => if p.1 = k then some p.2 else dGet rest k

/-- Python dict assignment d[k] = v: replace the value in place when the
key is present (dicts have unique keys), append the pair otherwise. -/
def dSet {κ ν : Type} [DecidableEq κ] : List (κ × ν) → κ → ν → List (κ × ν)
  | [], k, v => [(k, v)]
  | p :: rest, k, v => if p.1 = k then (k, v) :: rest else p :: dSet rest k v

/-- Key membership in a Python dict. -/
def dHas {κ ν : Type} [DecidableEq κ] (d : List (κ × ν)) (k : κ) : Bool :=
  (dGet d k).isSome

/-- Python truthiness of an optional byte-string argument: None and empty
bytes are falsy. -/
def truthyBytes : Option ByteStr → Bool
  | none => false
  | some b => !b.isEmpty

/-- Python truthiness of an optional string argument: None and the empty
string are falsy. -/
def truthyStr : Option String → Bool
  | none => false
  | some s => !s.isEmpty

/-- Python truthiness of an optional int argument: None and 0 are falsy. -/
def truthyInt : Option Int → Bool
  | none => false
  | some n => decide (n ≠ 0)

/-! ### base64 (stdlib collaborator, implemented concretely) -/

/-- The base64 alphabet. -/
def b64alphabet : List Char :=
  String.toList "ABCDEFGHIJKLMNOPQRSTUVWXYZabcdefghijklmnopqrstuvwxyz0123456789+/"

/-- Character for a sextet value. -/
def b64char (n : Nat) : Char := b64alphabet.getD n 'A'

/-- Encode a byte string into base64 characters, with padding. -/
def b64encodeCore : List Nat → List Char
  | [] => []
  | [a] => [b64char (a / 4), b64char (a % 4 * 16), '=', '=']
  | [a, b] => [b64char (a / 4), b64char (a % 4 * 16 + b / 16), b64char (b % 16 * 4), '=']
  | a :: b :: c :: rest =>
      b64char (a / 4) :: b64char (a % 4 * 16 + b / 16) ::
        b64char (b % 16 * 4 + c / 64) :: b64char (c % 64) :: b64encodeCore rest

/-- base64.b64encode(bs).decode("ascii"). -/
def b64encode (bs : ByteStr) : String := String.mk (b64encodeCore bs)

/-- Sextet value of a base64 character; none for the padding character. -/
def b64val (c : Char) : Option Nat :=
  b64alphabet.indexOf? c

/-- Decode base64 characters back into bytes (padding-aware). -/
def b64decodeCore : List Char → List Nat
  | c1 :: c2 :: c3 :: c4 :: rest =>
      match b64val c1, b64val c2 with
      | some s1, some s2 =>
          let a := s1 * 4 + s2 / 16
          match b64val c3 with
          | none => [a]
          | some s3 =>
              let b := s2 % 16 * 16 + s3 / 4
              match b64val c4 with
              | none => [a, b]
              | some s4 => a :: b :: (s3 % 4 * 64 + s4) :: b64decodeCore rest
      | _, _ => []
  | _ => []

/-- base64.b64decode on a string. -/
def b64decode (s : String) : ByteStr := b64decodeCore s.toList

/-! ### SHA-1 (hashlib collaborator, implemented concretely) -/

/-- Truncate to a 32-bit word. -/
def w32 (x : Nat) : Nat := x % 4294967296

/-- Rotate a 32-bit word left by n bits. -/
def rotl32 (n x : Nat) : Nat := w32 (x <<< n) ||| (x >>> (32 - n))

/-- Big-endian byte expansion of n into k bytes. -/
def natToBytesBE (k n : Nat) : List Nat :=
  (List.range k).map (fun i => n / 2 ^ ((k - 1 - i) * 8) % 256)

/-- SHA-1 message padding: a 0x80 byte, zero bytes to 56 mod 64, then the
bit length as 8 big-endian bytes. -/
def sha1pad (msg : List Nat) : List Nat :=
  let padZeros := (120 - (msg.length + 1) % 64) % 64
  msg ++ 128 :: List.replicate padZeros 0 ++ natToBytesBE 8 (msg.length * 8)

/-- Group bytes into big-endian 32-bit words. -/
def bytesToWords : List Nat → List Nat
  | a :: b :: c :: d :: rest =>
      (a * 16777216 + b * 65536 + c * 256 + d) :: bytesToWords rest
  | _ => []

/-- Split a padded message into 64-byte chunks. -/
def chunk64 (bs : List Nat) : List (List Nat) :=
  if h : bs = [] then []
  else
    have : bs.length - 64 < bs.length := by
      have hpos : 0 < bs.length := List.length_pos.mpr h
      omega
    bs.take 64 :: chunk64 (bs.drop 64)
termination_by bs.length
decreasing_by simpa [List.length_drop] using this

/-- One step of the SHA-1 message-schedule extension. -/
def sha1extendStep (ws : List Nat) : List Nat :=
  let n := ws.length
  ws ++ [rotl32 1 ((ws.getD (n - 3) 0) ^^^ (ws.getD (n - 8) 0) ^^^
    (ws.getD (n - 14) 0) ^^^ (ws.getD (n - 16) 0))]

/-- Iterate the schedule extension. -/
def sha1extendN : Nat → List Nat → List Nat
  | 0, ws => ws
  | Nat.succ k, ws => sha1extendN k (sha1extendStep ws)

/-- Extend the 16 chunk words to the 80 scheduled words. -/
def sha1schedule (ws : List Nat) : List Nat := sha1extendN 64 ws

/-- SHA-1 round function for round t. -/
def sha1f (t b c d : Nat) : Nat :=
  if t < 20 then (b &&& c) ||| ((b ^^^ 4294967295) &&& d)
  else if t < 40 then b ^^^ c ^^^ d
  else if t < 60 then (b &&& c) ||| (b &&& d) ||| (c &&& d)
  else b ^^^ c ^^^ d

/-- SHA-1 round constant for round t. -/
def sha1k (t : Nat) : Nat :=
  if t < 20 then 1518500249
  else if t < 40 then 1859775393
  else if t < 60 then 2400959708
  else 3395469782

/-- SHA-1 working state: the five 32-bit registers. -/
abbrev Sha1St := Nat × Nat × Nat × Nat × Nat

/-- The 80 SHA-1 rounds over the scheduled words. -/
def sha1rounds : List Nat → Nat → Sha1St → Sha1St
  | [], _, st => st
  | w :: ws, t, (a, b, c, d, e) =>
      let temp := w32 (rotl32 5 a + sha1f t b c d + e + sha1k t + w)
      sha1rounds ws (t + 1) (temp, a, rotl32 30 b, c, d)

/-- Process one 64-byte chunk. -/
def sha1chunkStep (st : Sha1St) (chunkBytes : List Nat) : Sha1St :=
  match st with
  | (h0, h1, h2, h3, h4) =>
      match sha1rounds (sha1schedule (bytesToWords chunkBytes)) 0 st with
      | (a, b, c, d, e) =>
          (w32 (h0 + a), w32 (h1 + b), w32 (h2 + c), w32 (h3 + d), w32 (h4 + e))

/-- Lower-case hex digit. -/
def hexDigit (n : Nat) : Char := (String.toList "0123456789abcdef").getD n '0'

/-- Eight hex digits of a 32-bit word, most significant first. -/
def toHex8 (n : Nat) : List Char :=
  (List.range 8).map (fun i => hexDigit (n / 2 ^ ((7 - i) * 4) % 16))

/-- hashlib.sha1(msg).hexdigest(). -/
def sha1Hex (msg : ByteStr) : String :=
  match (chunk64 (sha1pad msg)).foldl sha1chunkStep
      (1732584193, 4023233417, 2562383102, 271733878, 3285377520) with
  | (h0, h1, h2, h3, h4) =>
      String.mk (toHex8 h0 ++ toHex8 h1 ++ toHex8 h2 ++ toHex8 h3 ++ toHex8 h4)

/-! ### Media references: Image and Video -/

/-- Cloud Storage download collaborator: maps the stored URI attribute
(passed through exactly as held by the object) to the blob bytes. -/
abbrev Fetcher := Option String → ByteStr

/-- State of a vertexai Image object: the lazily cached byte payload
(attribute loaded_bytes) and the GCS URI (attribute gcs_uri). -/
structure Image where
  loadedBytes : Option ByteStr
  gcsUri : Option String
deriving DecidableEq

/-- Image.__init__: raises ValueError unless exactly one of image_bytes
and gcs_uri is truthy (bool(image_bytes) == bool(gcs_uri) fails);
otherwise the setter stores the bytes argument as the cache (possibly
None) and records the URI. -/
def Image.init (image_bytes : Option ByteStr) (gcs_uri : Option String) :
    Except String Image :=
  if truthyBytes image_bytes == truthyStr gcs_uri then
    .error "Either image_bytes or gcs_uri must be provided."
  else
    .ok { loadedBytes := image_bytes, gcsUri := gcs_uri }

/-- State of a vertexai Video object: cached bytes and GCS URI. -/
structure Video where
  loadedBytes : Option ByteStr
  gcsUri : Option String
deriving DecidableEq

/-- Video.__init__, with the same exactly-one-truthy validation as
Image.__init__. -/
def Video.init (video_bytes : Option ByteStr) (gcs_uri : Option String) :
    Except String Video :=
  if truthyBytes video_bytes == truthyStr gcs_uri then
    .error "Either video_bytes or gcs_uri must be provided."
  else
    .ok { loadedBytes := video_bytes, gcsUri := gcs_uri }

/-- One access to the Image._image_bytes property: return the cached
bytes when the cache is populated; otherwise download from storage, cache
the result and return it. The Bool records whether this access performed
a storage fetch. -/
def Image.imageBytesStep (fetch : Fetcher) (img : Image) :
    ByteStr × Image × Bool :=
  match img.loadedBytes with
  | some b => (b, img, false)
  | none =>
      let b := fetch img.gcsUri
      (b, { img with loadedBytes := some b }, true)

/-- Value of the Image._image_bytes property (the bytes an access
returns). -/
def Image.imageBytes (fetch : Fetcher) (img : Image) : ByteStr :=
  (Image.imageBytesStep fetch img).1

/-- Repeated accesses to Image._image_bytes on the same object: the list
of returned byte strings, the final object state and the total number of
storage fetches performed. -/
def Image.imageBytesCalls (fetch : Fetcher) (img : Image) :
    Nat → List ByteStr × Image × Nat
  | 0 => ([], img, 0)
  | Nat.succ n =>
      let r := Image.imageBytesStep fetch img
      let rest := Image.imageBytesCalls fetch r.2.1 n
      (r.1 :: rest.1, rest.2.1, (if r.2.2 then 1 else 0) + rest.2.2)

/-- Image._as_base64_string(): base64 of the resolved bytes. -/
def Image.asBase64String (fetch : Fetcher) (img : Image) : String :=
  b64encode (Image.imageBytes fetch img)

/-- One access to the Video._video_bytes property (source lines
218-227): return the cached bytes when the cache is populated;
otherwise download from storage, cache the result and return it. The
Bool records whether this access performed a storage fetch. -/
def Video.videoBytesStep (fetch : Fetcher) (vid : Video) :
    ByteStr × Video × Bool :=
  match vid.loadedBytes with
  | some b => (b, vid, false)
  | none =>
      let b := fetch vid.gcsUri
      (b, { vid with loadedBytes := some b }, true)

/-- Value of the Video._video_bytes property (the bytes an access
returns). -/
def Video.videoBytes (fetch : Fetcher) (vid : Video) : ByteStr :=
  (Video.videoBytesStep fetch vid).1

/-- Repeated accesses to Video._video_bytes on the same object: the
list of returned byte strings, the final object state and the total
number of storage fetches performed. -/
def Video.videoBytesCalls (fetch : Fetcher) (vid : Video) :
    Nat → List ByteStr × Video × Nat
  | 0 => ([], vid, 0)
  | Nat.succ n =>
      let r := Video.videoBytesStep fetch vid
      let rest := Video.videoBytesCalls fetch r.2.1 n
      (r.1 :: rest.1, rest.2.1, (if r.2.2 then 1 else 0) + rest.2.2)

/-- Video._as_base64_string(). -/
def Video.asBase64String (fetch : Fetcher) (vid : Video) : String :=
  b64encode (Video.videoBytes fetch vid)

/-- The instance entry built for an image in every request builder of the
module: a gcsUri reference when the URI attribute is truthy, otherwise an
inline bytesBase64Encoded payload. -/
def imageInstanceEntry (fetch : Fetcher) (img : Image) : Bag :=
  match img.gcsUri with
  | some uri =>
      if uri.isEmpty then
        [("bytesBase64Encoded", JVal.str (Image.asBase64String fetch img))]
      else [("gcsUri", JVal.str uri)]
  | none => [("bytesBase64Encoded", JVal.str (Image.asBase64String fetch img))]

/-- The instance entry built for a video in the embedding builder. -/
def videoInstanceEntry (fetch : Fetcher) (vid : Video) : Bag :=
  match vid.gcsUri with
  | some uri =>
      if uri.isEmpty then
        [("bytesBase64Encoded", JVal.str (Video.asBase64String fetch vid))]
      else [("gcsUri", JVal.str uri)]
  | none => [("bytesBase64Encoded", JVal.str (Video.asBase64String fetch vid))]

/-! ### Generation orchestrator -/

/-- One prediction object returned by the endpoint for generation and
upscale calls: optional base64 payload and optional output URI. -/
structure Prediction where
  bytesBase64Encoded : Option String
  gcsUri : Option String
deriving DecidableEq

/-- Heap of parameter-bag dict objects. A GeneratedImage holds a
reference (an index into this heap), so Python dict aliasing and
in-place mutation are represented faithfully. -/
abbrev Store := List Bag

/-- Allocate a fresh dict object; returns the heap and the reference. -/
def Store.alloc (st : Store) (b : Bag) : Store × Nat := (st ++ [b], st.length)

/-- Dereference a dict object. -/
def Store.getBag (st : Store) (r : Nat) : Bag := st.getD r []

/-- Mutate a dict object in place. -/
def Store.setBag (st : Store) (r : Nat) (b : Bag) : Store := st.set r b

/-- State of a GeneratedImage: the underlying Image state plus the
reference to its generation-parameters dict. -/
structure GeneratedImage where
  img : Image
  bagRef : Nat
deriving DecidableEq

/-- GeneratedImage.__init__ delegates validation to Image.__init__ and
stores the given generation-parameters dict reference. -/
def GeneratedImage.init (image_bytes : Option ByteStr) (bagRef : Nat)
    (gcs_uri : Option String) : Except String GeneratedImage :=
  match Image.init image_bytes gcs_uri with
  | .error e => .error e
  | .ok i => .ok { img := i, bagRef := bagRef }

/-- Arguments of ImageGenerationModel._generate_images. guidance_scale
is a float in the source; no claim concerns its value, only its
presence, so it is carried as an integer passed through verbatim. -/
structure GenArgs where
  prompt : String
  negative_prompt : Option String := none
  number_of_images : Int := 1
  width : Option Int := none
  height : Option Int := none
  guidance_scale : Option Int := none
  seed : Option Int := none
  base_image : Option Image := none
  mask : Option Image := none
  language : Option String := none
  output_gcs_uri : Option String := none

/-- The provenance entry recorded into the shared generation parameters
for a supplied base image or mask (source lines 377-411): the URI when
the image's gcsUri attribute is truthy, otherwise the hex SHA-1 digest
of its resolved bytes, under the respective key. -/
def sharedProvenance (fetch : Fetcher) (uriKey hashKey : String)
    (img : Image) (shared : Bag) : Bag :=
  match img.gcsUri with
  | some uri =>
      if uri.isEmpty then
        dSet shared hashKey (JVal.str (sha1Hex (Image.imageBytes fetch img)))
      else dSet shared uriKey (JVal.str uri)
  | none =>
      dSet shared hashKey (JVal.str (sha1Hex (Image.imageBytes fetch img)))

/-- The size-related slice of the request parameters built by
_generate_images (source lines 413-421): the possibly-disabled
sampleImageSize and aspectRatio entries followed by sampleCount. -/
def genSizeParams (a : GenArgs) : Bag :=
  let params : Bag := []
  let maxSize : Int := max (a.width.getD 0) (a.height.getD 0)
  let params :=
    if maxSize ≠ 0 then
      let params := dSet params "sampleImageSize" (JVal.str (toString maxSize))
      match a.width, a.height with
      | some w, some h =>
          if h ≠ w then
            dSet params "aspectRatio"
              (JVal.str (toString w ++ ":" ++ toString h))
          else params
      | _, _ => params
    else params
  dSet params "sampleCount" (JVal.int a.number_of_images)

/-- Request instance, request parameters and shared generation
parameters built by ImageGenerationModel._generate_images before the
predict call (source lines 367-441), in source order. An Image object
is always truthy in Python, so the base_image and mask guards test
presence; the gcsUri guards inside test string truthiness. Each source
assignment updates one of the three dicts, so the model threads each
dict separately through the same branch structure. -/
def buildGenRequest (fetch : Fetcher) (a : GenArgs) : Bag × Bag × Bag :=
  let instanceBag : Bag := [("prompt", JVal.str a.prompt)]
  let shared : Bag := [("prompt", JVal.str a.prompt),
    ("number_of_images_in_batch", JVal.int a.number_of_images)]
  let instanceBag :=
    match a.base_image with
    | none => instanceBag
    | some bi => dSet instanceBag "image"
        (JVal.obj (imageInstanceEntry fetch bi))
  let shared :=
    match a.base_image with
    | none => shared
    | some bi => sharedProvenance fetch "base_image_uri" "base_image_hash" bi shared
  let instanceBag :=
    match a.mask with
    | none => instanceBag
    | some m => dSet instanceBag "mask"
        (JVal.obj [("image", JVal.obj (imageInstanceEntry fetch m))])
  let shared :=
    match a.mask with
    | none => shared
    | some m => sharedProvenance fetch "mask_uri" "mask_hash" m shared
  let params := genSizeParams a
  let params :=
    match a.negative_prompt with
    | some np =>
        if np.isEmpty then params
        else dSet params "negativePrompt" (JVal.str np)
    | none => params
  let shared :=
    match a.negative_prompt with
    | some np =>
        if np.isEmpty then shared
        else dSet shared "negative_prompt" (JVal.str np)
    | none => shared
  let params :=
    match a.seed with
    | some s => dSet params "seed" (JVal.int s)
    | none => params
  let shared :=
    match a.seed with
    | some s => dSet shared "seed" (JVal.int s)
    | none => shared
  let params :=
    match a.guidance_scale with
    | some gsc => dSet params "guidanceScale" (JVal.int gsc)
    | none => params
  let shared :=
    match a.guidance_scale with
    | some gsc => dSet shared "guidance_scale" (JVal.int gsc)
    | none => shared
  let params :=
    match a.language with
    | some lang => dSet params "language" (JVal.str lang)
    | none => params
  let shared :=
    match a.language with
    | some lang => dSet shared "language" (JVal.str lang)
    | none => shared
  let params :=
    match a.output_gcs_uri with
    | some u => dSet params "storageUri" (JVal.str u)
    | none => params
  let shared :=
    match a.output_gcs_uri with
    | some u => dSet shared "storage_uri" (JVal.str u)
    | none => shared
  (instanceBag, params, shared)

/-- Optional image bytes decoded from a prediction: b64decode when the
payload string is truthy, None otherwise. -/
def predImageBytes (p : Prediction) : Option ByteStr :=
  match p.bytesBase64Encoded with
  | some enc => if enc.isEmpty then none else some (b64decode enc)
  | none => none

/-- Decode loop of _generate_images (source lines 448-460): for the
idx-th prediction, copy the shared bag (dict(shared)), add the
index_of_image_in_batch field, allocate the copy as a fresh dict object
and construct a GeneratedImage over it. -/
def decodeGenPredictions (shared : Bag) :
    Nat → List Prediction → Store →
    Except String (List GeneratedImage × Store)
  | _, [], store => .ok ([], store)
  | idx, p :: rest, store =>
      let gp := dSet shared "index_of_image_in_batch" (JVal.int idx)
      let (store, r) := Store.alloc store gp
      match Image.init (predImageBytes p) p.gcsUri with
      | .error e => .error e
      | .ok im =>
          match decodeGenPredictions shared (idx + 1) rest store with
          | .error e => .error e
          | .ok (gis, store) => .ok ({ img := im, bagRef := r } :: gis, store)

/-- ImageGenerationModel._generate_images, with the endpoint response
supplied as the list of predictions the predict call returns. -/
def generateImagesCore (fetch : Fetcher) (a : GenArgs) (store : Store)
    (preds : List Prediction) :
    Except String (List GeneratedImage × Store) :=
  match buildGenRequest fetch a with
  | (_, _, shared) => decodeGenPredictions shared 0 preds store

/-- ImageGenerationModel.generate_images: forwards to _generate_images
with width, height, base_image and mask fixed to None. -/
def generateImages (fetch : Fetcher) (prompt : String)
    (negative_prompt : Option String) (number_of_images : Int)
    (guidance_scale : Option Int) (language : Option String)
    (seed : Option Int) (output_gcs_uri : Option String)
    (store : Store) (preds : List Prediction) :
    Except String (List GeneratedImage × Store) :=
  generateImagesCore fetch
    { prompt := prompt, negative_prompt := negative_prompt,
      number_of_images := number_of_images, width := none, height := none,
      guidance_scale := guidance_scale, language := language, seed := seed,
      output_gcs_uri := output_gcs_uri } store preds

/-- ImageGenerationModel.edit_image: forwards to _generate_images with
the base image and optional mask. -/
def editImage (fetch : Fetcher) (prompt : String) (base_image : Image)
    (mask : Option Image) (negative_prompt : Option String)
    (number_of_images : Int) (guidance_scale : Option Int)
    (language : Option String) (seed : Option Int)
    (output_gcs_uri : Option String) (store : Store)
    (preds : List Prediction) :
    Except String (List GeneratedImage × Store) :=
  generateImagesCore fetch
    { prompt := prompt, negative_prompt := negative_prompt,
      number_of_images := number_of_images,
      guidance_scale := guidance_scale, seed := seed,
      base_image := some base_image, mask := mask, language := language,
      output_gcs_uri := output_gcs_uri } store preds

/-! ### Upscale -/

/-- PIL decoding collaborator: pixel (width, height) of an encoded
image byte string. -/
abbrev SizeFn := ByteStr → Nat × Nat

/-- Supported upscaling sizes (source line 45). -/
def _SUPPORTED_UPSCALING_SIZES : List Int := [2048, 4096]

/-- Message of the source-dimension validation error of upscale_image
(source lines 593-595). -/
def upscaleSizeErrMsg : String :=
  "Upscaling is currently only supported on images that are 1024x1024."

/-- Message of the target-size validation error of upscale_image
(source lines 598-600). -/
def upscaleTargetErrMsg : String :=
  "Only the folowing square upscaling sizes are currently supported: [2048, 4096]."

/-- Argument of upscale_image: a plain Image or a GeneratedImage (the
source distinguishes them with isinstance). -/
inductive UpscaleInput where
  | plain (i : Image)
  | generated (g : GeneratedImage)
deriving DecidableEq

/-- Underlying Image state of an upscale argument. -/
def UpscaleInput.toImage : UpscaleInput → Image
  | plain i => i
  | generated g => g.img

/-- The instance built by upscale_image (source lines 602-611). -/
def buildUpscaleInstance (fetch : Fetcher) (image : UpscaleInput) : Bag :=
  dSet [("prompt", JVal.str "")] "image"
    (JVal.obj (imageInstanceEntry fetch image.toImage))

/-- ImageGenerationModel.upscale_image (source lines 555-642): local
size validation, request build, predict (its response supplied as
preds) and result decoding. For a GeneratedImage argument the source
augments the argument's own generation-parameters dict in place and
hands the same dict to the result; for a plain Image it allocates a
fresh dict. -/
def upscaleImage (fetch : Fetcher) (pilSize : SizeFn)
    (image : UpscaleInput) (new_size : Option Int)
    (output_gcs_uri : Option String) (store : Store)
    (preds : List Prediction) :
    Except String (GeneratedImage × Store) :=
  let sz := pilSize (Image.imageBytes fetch image.toImage)
  if sz.1 ≠ 1024 ∧ sz.2 ≠ 1024 then
    .error upscaleSizeErrMsg
  else
    match new_size with
    | none => .error upscaleTargetErrMsg
    | some n =>
        if n ∉ _SUPPORTED_UPSCALING_SIZES then
          .error upscaleTargetErrMsg
        else
          let _instanceBag := buildUpscaleInstance fetch image
          let params : Bag := [("sampleImageSize", JVal.str (toString n)),
            ("sampleCount", JVal.int 1), ("mode", JVal.str "upscale")]
          let _params := match output_gcs_uri with
            | some u => dSet params "storageUri" (JVal.str u)
            | none => params
          match preds with
          | [] => .error "IndexError: list index out of range"
          | upscaled :: _ =>
              let (store, r) :=
                match image with
                | .generated g =>
                    (Store.setBag store g.bagRef
                      (dSet (Store.getBag store g.bagRef)
                        "upscaled_image_size" (JVal.int n)), g.bagRef)
                | .plain _ =>
                    Store.alloc store
                      (dSet ([] : Bag) "upscaled_image_size" (JVal.int n))
              match Image.init (predImageBytes upscaled) upscaled.gcsUri with
              | .error e => .error e
              | .ok im => .ok ({ img := im, bagRef := r }, store)

/-! ### Captioning, QnA and embedding request builders -/

/-- ImageCaptioningModel.get_captions request build (source lines
784-799). -/
def buildCaptionRequest (fetch : Fetcher) (image : Image)
    (number_of_results : Int) (language : String)
    (output_gcs_uri : Option String) : Bag × Bag :=
  let instanceBag := dSet ([] : Bag) "image"
    (JVal.obj (imageInstanceEntry fetch image))
  let params : Bag := [("sampleCount", JVal.int number_of_results),
    ("language", JVal.str language)]
  let params := match output_gcs_uri with
    | some u => dSet params "storageUri" (JVal.str u)
    | none => params
  (instanceBag, params)

/-- ImageQnAModel.ask_question request build (source lines 846-858). -/
def buildAskQuestionRequest (fetch : Fetcher) (image : Image)
    (question : String) (number_of_results : Int) : Bag × Bag :=
  let instanceBag := dSet [("prompt", JVal.str question)] "image"
    (JVal.obj (imageInstanceEntry fetch image))
  (instanceBag, [("sampleCount", JVal.int number_of_results)])

/-- VideoSegmentConfig: the three caller-supplied window fields. -/
structure VideoSegmentConfig where
  start_offset_sec : Int := 0
  end_offset_sec : Int := 120
  interval_sec : Int := 16
deriving DecidableEq

/-- Arguments of MultiModalEmbeddingModel.get_embeddings. -/
structure EmbArgs where
  image : Option Image := none
  video : Option Video := none
  contextual_text : Option String := none
  dimension : Option Int := none
  video_segment_config : Option VideoSegmentConfig := none

/-- MultiModalEmbeddingModel.get_embeddings request build (source lines
924-963): requires at least one truthy input among image, video and
contextual_text (Image and Video objects are always truthy), then
builds the instance and the parameters object. -/
def buildEmbeddingRequest (fetch : Fetcher) (a : EmbArgs) :
    Except String (Bag × Bag) :=
  if a.image.isNone ∧ a.video.isNone ∧ ¬ truthyStr a.contextual_text = true then
    .error "One of `image`, `video`, or `contextual_text` is required."
  else
    let instanceBag : Bag := []
    let instanceBag :=
      match a.image with
      | some img => dSet instanceBag "image"
          (JVal.obj (imageInstanceEntry fetch img))
      | none => instanceBag
    let instanceBag :=
      match a.video with
      | some vid =>
          let ventry := videoInstanceEntry fetch vid
          let ventry :=
            match a.video_segment_config with
            | some cfg => dSet ventry "videoSegmentConfig"
                (JVal.obj [("startOffsetSec", JVal.int cfg.start_offset_sec),
                  ("endOffsetSec", JVal.int cfg.end_offset_sec),
                  ("intervalSec", JVal.int cfg.interval_sec)])
            | none => ventry
          dSet instanceBag "video" (JVal.obj ventry)
      | none => instanceBag
    let instanceBag :=
      match a.contextual_text with
      | some t =>
          if t.isEmpty then instanceBag
          else dSet instanceBag "text" (JVal.str t)
      | none => instanceBag
    let params : Bag := []
    let params :=
      match a.dimension with
      | some n => if n = 0 then params else dSet params "dimension" (JVal.int n)
      | none => params
    .ok (instanceBag, params)

/-! ### GeneratedImage save / load round-trip -/

/-- EXIF table of an image: tag index to JSON value. The physical EXIF
slot holds the json.dumps text; json.loads inverts json.dumps on
JSON-representable values (stdlib contract), so the slot is modelled as
holding the JSON value itself. -/
abbrev ExifTable := List (Nat × JVal)

/-- EXIF user-comment tag 0x9286 (source line 666). -/
def _EXIF_USER_COMMENT_TAG_IDX : Nat := 37510

/-- Namespaced key under which the generation parameters are embedded
(source lines 667-669). -/
def _IMAGE_GENERATION_PARAMETERS_EXIF_KEY : String :=
  "google.cloud.vertexai.image_generation.image_generation_parameters"

/-- A saved image file in decoded view: the pixel payload and its EXIF
table. PIL encoding and decoding round-trip this pair (collaborator
contract). -/
structure ImageFile where
  content : ByteStr
  exif : ExifTable

/-- PIL getexif collaborator: EXIF table carried by an in-memory
encoded image byte string. -/
abbrev ExifFn := ByteStr → ExifTable

/-- GeneratedImage.save(location, include_generation_parameters)
(source lines 718-740): with the flag set, requires a truthy
generation-parameters dict, embeds the dict as a JSON object under the
namespaced key into the user-comment slot of the image's own EXIF
table, and writes the image with that EXIF; without the flag, writes
the resolved bytes verbatim. -/
def GeneratedImage.save (fetch : Fetcher) (pilExif : ExifFn)
    (store : Store) (g : GeneratedImage)
    (include_generation_parameters : Bool) : Except String ImageFile :=
  let bytes := Image.imageBytes fetch g.img
  if include_generation_parameters then
    if (Store.getBag store g.bagRef).isEmpty then
      .error "Image does not have generation parameters."
    else
      let exif := pilExif bytes
      let exif := dSet exif _EXIF_USER_COMMENT_TAG_IDX
        (JVal.obj [(_IMAGE_GENERATION_PARAMETERS_EXIF_KEY,
          JVal.obj (Store.getBag store g.bagRef))])
      .ok { content := bytes, exif := exif }
  else
    .ok { content := bytes, exif := pilExif bytes }

/-- Result of GeneratedImage.load_from_file: the reconstructed image
state and the parsed generation-parameters JSON value. -/
structure LoadedGeneratedImage where
  img : Image
  generationParameters : JVal

/-- GeneratedImage.load_from_file on a local file (source lines
698-716): load the plain image from the file bytes, read the EXIF
user-comment slot of the loaded image (KeyError when absent), parse the
JSON text and extract the namespaced key. -/
def GeneratedImage.loadFromFile (file : ImageFile) :
    Except String LoadedGeneratedImage :=
  match Image.init (some file.content) none with
  | .error e => .error e
  | .ok base =>
      match dGet file.exif _EXIF_USER_COMMENT_TAG_IDX with
      | none => .error "KeyError: 37510"
      | some v =>
          match v with
          | JVal.obj fields =>
              match dGet fields _IMAGE_GENERATION_PARAMETERS_EXIF_KEY with
              | none =>
                  .error "KeyError: image_generation_parameters"
              | some gp => .ok { img := base, generationParameters := gp }
          | _ => .error "TypeError: JSON value is not an object"

/-! ### Shared helper definitions and concrete witness inputs -/

/-- Boolean success of a call modelled in Except. -/
def exOk {α : Type} (e : Except String α) : Bool :=
  match e with
  | .ok _ => true
  | .error _ => false

/-- Validity of the requested upscale target size: membership of the
supplied value in _SUPPORTED_UPSCALING_SIZES. -/
def newSizeSupported : Option Int → Bool
  | some n => decide (n ∈ _SUPPORTED_UPSCALING_SIZES)
  | none => false

/-- Concrete inline image used by witnesses. -/
def wImg5 : Image := { loadedBytes := some [5], gcsUri := none }

/-- Concrete remote image used by witnesses. -/
def wImgRemote : Image := { loadedBytes := none, gcsUri := some "gs://b/i.png" }

/-- Concrete inline video used by witnesses. -/
def wVid : Video := { loadedBytes := some [7], gcsUri := none }

/-- Concrete remote video used by witnesses. -/
def wVidRemote : Video := { loadedBytes := none, gcsUri := some "gs://b/v.mp4" }

/-- Concrete prediction object used by witnesses. -/
def wPred : Prediction := { bytesBase64Encoded := some "AAAA", gcsUri := none }

/-- Concrete generated image over bag reference 0 used by witnesses. -/
def wGen0 : GeneratedImage := { img := wImg5, bagRef := 0 }

/-- Concrete per-item parameter bag of the three-image generation
witness. -/
def wBag3 (i : Int) : Bag :=
  [("prompt", JVal.str "x"), ("number_of_images_in_batch", JVal.int 3),
    ("index_of_image_in_batch", JVal.int i)]

/-- Concrete output image of the three-image generation witness. -/
def wGenOut (i : Nat) : GeneratedImage :=
  { img := { loadedBytes := some [0, 0, 0], gcsUri := none }, bagRef := i }

/-! ### Helper lemmas -/

theorem dGet_dSet_self {κ ν : Type} [DecidableEq κ]
    (d : List (κ × ν)) (k : κ) (v : ν) :
    dGet (dSet d k v) k = some v := by
  induction d with
  | nil => simp [dSet, dGet]
  | cons p rest ih =>
      by_cases h : p.1 = k
      · simp [dSet, dGet, h]
      · simp [dSet, dGet, h, ih]

theorem dGet_dSet_ne {κ ν : Type} [DecidableEq κ]
    (d : List (κ × ν)) (k k' : κ) (v : ν) (h : k ≠ k') :
    dGet (dSet d k v) k' = dGet d k' := by
  induction d with
  | nil => simp [dSet, dGet, h]
  | cons p rest ih =>
      by_cases hp : p.1 = k
      · simp [dSet, dGet, hp, h]
      · by_cases hp' : p.1 = k'
        · simp [dSet, dGet, hp, hp', Ne.symm h]
        · simp [dSet, dGet, hp, hp', ih]

theorem Image.init_error_msg (b : Option ByteStr) (u : Option String)
    (e : String) (h : Image.init b u = .error e) :
    e = "Either image_bytes or gcs_uri must be provided." := by
  unfold Image.init at h
  split at h
  · injection h with h; exact h.symm
  · cases h

theorem dHas_dSet_self {κ ν : Type} [DecidableEq κ]
    (d : List (κ × ν)) (k : κ) (v : ν) : dHas (dSet d k v) k = true := by
  simp [dHas, dGet_dSet_self]

theorem dHas_dSet_ne {κ ν : Type} [DecidableEq κ]
    (d : List (κ × ν)) (k k' : κ) (v : ν) (h : k ≠ k') :
    dHas (dSet d k v) k' = dHas d k' := by
  simp [dHas, dGet_dSet_ne _ _ _ _ h]

theorem Store.getBag_setBag_self (st : Store) (r : Nat) (b : Bag)
    (h : r < st.length) : Store.getBag (Store.setBag st r b) r = b := by
  simp [Store.getBag, Store.setBag, List.getD, List.getElem?_set_self', h]

/-! ### Claim C4 -/

/-- Claim C4 as stated is false: constructing an Image with inline bytes
given as the empty byte string and no URI supplies exactly one of the two
arguments, yet construction fails with the construction error (Python
truthiness treats empty bytes as not provided). -/
theorem claim_C4_counterexample :
    (some ([] : ByteStr)).isSome = true
    ∧ (none : Option String).isSome = false
    ∧ Image.init (some []) none
      = .error "Either image_bytes or gcs_uri must be provided." :=
  ⟨rfl, rfl, rfl⟩

/-- C4 (amended): constructing an Image or Video succeeds iff exactly one
of inline bytes and remote URI is truthy in the Python sense (None, empty
bytes and the empty string count as not given); when the truthiness of
the two agrees the constructor fails with the construction ValueError. -/
theorem claim_C4_amended (b : Option ByteStr) (u : Option String) :
    (exOk (Image.init b u) = (truthyBytes b != truthyStr u))
    ∧ (exOk (Video.init b u) = (truthyBytes b != truthyStr u))
    ∧ (truthyBytes b = truthyStr u →
        Image.init b u = .error "Either image_bytes or gcs_uri must be provided."
        ∧ Video.init b u = .error "Either video_bytes or gcs_uri must be provided.") := by
  refine ⟨?_, ?_, ?_⟩ <;>
    cases hb : truthyBytes b <;> cases hu : truthyStr u <;>
      simp [Image.init, Video.init, exOk, hb, hu]

/-! ### Claim C10 -/

/-- Claim C10 as stated is false: calling get_embeddings with
contextual_text supplied as the empty string (and no image or video)
raises the missing-input error even though one of the three optional
arguments is present. -/
theorem claim_C10_counterexample :
    buildEmbeddingRequest (fun _ => []) { contextual_text := some "" }
      = .error "One of `image`, `video`, or `contextual_text` is required." := rfl

/-- C10 (amended): get_embeddings raises the missing-input error iff no
image is given, no video is given, and the contextual text is absent or
empty (Python truthiness); in every other case the request build
proceeds and succeeds. -/
theorem claim_C10_amended (fetch : Fetcher) (a : EmbArgs) :
    (buildEmbeddingRequest fetch a
        = .error "One of `image`, `video`, or `contextual_text` is required."
      ↔ a.image = none ∧ a.video = none ∧ truthyStr a.contextual_text = false)
    ∧ exOk (buildEmbeddingRequest fetch a)
        = (a.image.isSome || a.video.isSome || truthyStr a.contextual_text) := by
  cases himg : a.image <;> cases hvid : a.video <;>
    cases htx : truthyStr a.contextual_text <;>
      simp [buildEmbeddingRequest, exOk, himg, hvid, htx]

/-- Witness for C4 (amended) at concrete inputs: non-empty inline bytes
alone succeed; nothing at all fails with the construction errors. -/
theorem claim_C4_witness :
    exOk (Image.init (some [5]) none)
      = (truthyBytes (some [5]) != truthyStr none)
    ∧ Image.init none none
      = .error "Either image_bytes or gcs_uri must be provided."
    ∧ Video.init none none
      = .error "Either video_bytes or gcs_uri must be provided." :=
  ⟨(claim_C4_amended (some [5]) none).1,
   ((claim_C4_amended none none).2.2 rfl).1,
   ((claim_C4_amended none none).2.2 rfl).2⟩

/-- Witness for C10 (amended): the all-absent call errors and a call
with truthy contextual text succeeds. -/
theorem claim_C10_witness :
    buildEmbeddingRequest (fun _ => []) {}
      = .error "One of `image`, `video`, or `contextual_text` is required."
    ∧ exOk (buildEmbeddingRequest (fun _ => [])
        { contextual_text := some "hello" }) = true :=
  ⟨(claim_C10_amended (fun _ => []) {}).1.mpr ⟨rfl, rfl, rfl⟩,
   by simpa using
     (claim_C10_amended (fun _ => []) { contextual_text := some "hello" }).2⟩

/-! ### Claim C1 -/

/-- C1: for a GeneratedImage with a non-empty generation-parameters bag
(and a non-empty image payload, without which the reload of the written
file would fail to construct an image at all), saving with
include_generation_parameters and loading the written file back yields
exactly the original bag: no key loss and no change of any value. -/
theorem claim_C1_roundtrip (fetch : Fetcher) (pilExif : ExifFn)
    (store : Store) (g : GeneratedImage)
    (hparams : (Store.getBag store g.bagRef).isEmpty = false)
    (hbytes : (Image.imageBytes fetch g.img).isEmpty = false) :
    ((GeneratedImage.save fetch pilExif store g true).bind
        GeneratedImage.loadFromFile).map (fun l => l.generationParameters)
      = .ok (JVal.obj (Store.getBag store g.bagRef)) := by
  simp [GeneratedImage.save, GeneratedImage.loadFromFile, hparams,
    Image.init, truthyBytes, truthyStr, hbytes, Except.bind, Except.map,
    dGet_dSet_self, dGet, _IMAGE_GENERATION_PARAMETERS_EXIF_KEY]

/-- Witness for C1 at the bag of the spec example: prompt "cat", seed 7. -/
theorem claim_C1_witness :
    ((GeneratedImage.save (fun _ => []) (fun _ => [])
        [[("prompt", JVal.str "cat"), ("seed", JVal.int 7)]]
        { img := { loadedBytes := some [5], gcsUri := none }, bagRef := 0 }
        true).bind GeneratedImage.loadFromFile).map
      (fun l => l.generationParameters)
      = .ok (JVal.obj [("prompt", JVal.str "cat"), ("seed", JVal.int 7)]) :=
  claim_C1_roundtrip (fun _ => []) (fun _ => [])
    [[("prompt", JVal.str "cat"), ("seed", JVal.int 7)]]
    { img := { loadedBytes := some [5], gcsUri := none }, bagRef := 0 }
    rfl rfl

/-! ### Claim C8 -/

/-- C8: upscale_image fails with the dimension error whenever neither
pixel axis is exactly 1024; with an axis of 1024 it fails with the
target-size error whenever the requested size is not in {2048, 4096};
and with an axis of 1024 and a supported target it passes both local
validations, whatever the remote response would be. -/
theorem claim_C8_upscale_validation (fetch : Fetcher) (pilSize : SizeFn)
    (image : UpscaleInput) (new_size : Option Int) (ogu : Option String)
    (store : Store) (preds : List Prediction) (sz : Nat × Nat)
    (hsz : pilSize (Image.imageBytes fetch image.toImage) = sz) :
    (sz.1 ≠ 1024 → sz.2 ≠ 1024 →
      upscaleImage fetch pilSize image new_size ogu store preds
        = .error upscaleSizeErrMsg)
    ∧ ((sz.1 = 1024 ∨ sz.2 = 1024) → newSizeSupported new_size = false →
      upscaleImage fetch pilSize image new_size ogu store preds
        = .error upscaleTargetErrMsg)
    ∧ ((sz.1 = 1024 ∨ sz.2 = 1024) → newSizeSupported new_size = true →
      upscaleImage fetch pilSize image new_size ogu store preds
        ≠ .error upscaleSizeErrMsg
      ∧ upscaleImage fetch pilSize image new_size ogu store preds
        ≠ .error upscaleTargetErrMsg) := by
  refine ⟨?_, ?_, ?_⟩
  · intro h1 h2
    simp [upscaleImage, hsz, h1, h2]
  · intro hor hbad
    have hne : ¬ (sz.1 ≠ 1024 ∧ sz.2 ≠ 1024) := by tauto
    cases hns : new_size with
    | none => simp [upscaleImage, hsz, hne]
    | some n =>
        have : n ∉ _SUPPORTED_UPSCALING_SIZES := by
          simpa [newSizeSupported, hns] using hbad
        simp [upscaleImage, hsz, hne, this]
  · intro hor hgood
    have hne : ¬ (sz.1 ≠ 1024 ∧ sz.2 ≠ 1024) := by tauto
    cases hns : new_size with
    | none => simp [newSizeSupported, hns] at hgood
    | some n =>
        have hmem : n ∈ _SUPPORTED_UPSCALING_SIZES := by
          simpa [newSizeSupported, hns] using hgood
        rcases preds with _ | ⟨p, rest⟩
        · constructor <;>
            simp [upscaleImage, hsz, hne, hmem, upscaleSizeErrMsg,
              upscaleTargetErrMsg]
        · cases hinit : Image.init (predImageBytes p) p.gcsUri with
          | error e =>
              have he := Image.init_error_msg _ _ _ hinit
              subst he
              constructor <;>
                simp [upscaleImage, hsz, hne, hmem, hinit,
                  upscaleSizeErrMsg, upscaleTargetErrMsg]
          | ok im =>
              cases image <;>
                simp [upscaleImage, hsz, hne, hmem, hinit,
                  upscaleSizeErrMsg, upscaleTargetErrMsg]

/-- Witness for C8 at the spec's three examples: an 800x1024 image with
target 2048 passes validation; an 800x800 image is rejected with the
dimension error; an 800x1024 image with target 1024 is rejected with the
target-size error. -/
theorem claim_C8_witness :
    (upscaleImage (fun _ => []) (fun _ => (800, 1024)) (.plain wImg5)
        (some 2048) none [] [wPred] ≠ .error upscaleSizeErrMsg
      ∧ upscaleImage (fun _ => []) (fun _ => (800, 1024)) (.plain wImg5)
        (some 2048) none [] [wPred] ≠ .error upscaleTargetErrMsg)
    ∧ upscaleImage (fun _ => []) (fun _ => (800, 800)) (.plain wImg5)
        (some 2048) none [] [wPred] = .error upscaleSizeErrMsg
    ∧ upscaleImage (fun _ => []) (fun _ => (800, 1024)) (.plain wImg5)
        (some 1024) none [] [wPred] = .error upscaleTargetErrMsg :=
  ⟨(claim_C8_upscale_validation (fun _ => []) (fun _ => (800, 1024))
      (.plain wImg5) (some 2048) none [] [wPred] (800, 1024) rfl).2.2
      (Or.inr rfl) rfl,
   (claim_C8_upscale_validation (fun _ => []) (fun _ => (800, 800))
      (.plain wImg5) (some 2048) none [] [wPred] (800, 800) rfl).1
      (by decide) (by decide),
   (claim_C8_upscale_validation (fun _ => []) (fun _ => (800, 1024))
      (.plain wImg5) (some 1024) none [] [wPred] (800, 1024) rfl).2.1
      (Or.inr rfl) rfl⟩

/-! ### Claim C9 -/

/-- Claim C9 as stated is false: when the source image's bag already
contains an upscaled_image_size key (value 2048 here), upscaling to 4096
overwrites that pair, so not every key-value pair present before the
call is still present and unchanged afterwards. -/
theorem claim_C9_counterexample :
    dGet ([("upscaled_image_size", JVal.int 2048)] : Bag)
        "upscaled_image_size" = some (JVal.int 2048)
    ∧ (upscaleImage (fun _ => []) (fun _ => (1024, 1024)) (.generated wGen0)
        (some 4096) none [[("upscaled_image_size", JVal.int 2048)]]
        [wPred]).map
      (fun r => dGet (Store.getBag r.2 0) "upscaled_image_size")
      = .ok (some (JVal.int 4096)) :=
  ⟨rfl, rfl⟩

/-- C9 (amended): a successful upscale of a GeneratedImage augments the
source image's own generation-parameters dict in place with the
upscaled_image_size key mapped to the target size; every pair under any
other key is preserved unchanged, and the returned image holds the very
same dict (no fresh bag). -/
theorem claim_C9_amended (fetch : Fetcher) (pilSize : SizeFn)
    (g : GeneratedImage) (n : Int) (ogu : Option String) (store : Store)
    (preds : List Prediction) (out : GeneratedImage) (st2 : Store)
    (href : g.bagRef < store.length)
    (h : upscaleImage fetch pilSize (.generated g) (some n) ogu store preds
      = .ok (out, st2)) :
    out.bagRef = g.bagRef
    ∧ Store.getBag st2 g.bagRef
        = dSet (Store.getBag store g.bagRef) "upscaled_image_size" (JVal.int n)
    ∧ dGet (Store.getBag st2 g.bagRef) "upscaled_image_size"
        = some (JVal.int n)
    ∧ ∀ k, k ≠ "upscaled_image_size" →
        dGet (Store.getBag st2 g.bagRef) k
          = dGet (Store.getBag store g.bagRef) k := by
  revert h
  simp only [upscaleImage]
  split
  · intro h; exact absurd h (by simp)
  · split
    · intro h; exact absurd h (by simp)
    · intro h
      split at h
      · exact absurd h (by simp)
      · split at h
        · exact absurd h (by simp)
        · injection h with h
          injection h with hout hst
          subst hout hst
          have hbag : Store.getBag
              (Store.setBag store g.bagRef
                (dSet (Store.getBag store g.bagRef)
                  "upscaled_image_size" (JVal.int n))) g.bagRef
              = dSet (Store.getBag store g.bagRef)
                  "upscaled_image_size" (JVal.int n) :=
            Store.getBag_setBag_self _ _ _ href
          refine ⟨rfl, hbag, ?_, ?_⟩
          · rw [hbag]; exact dGet_dSet_self _ _ _
          · intro k hk
            rw [hbag]
            exact dGet_dSet_ne _ _ _ _ (Ne.symm hk)

/-- Witness for C9 (amended) at a concrete call: a 1024x1024 generated
image whose bag holds a prompt, upscaled to 4096. -/
theorem claim_C9_witness :
    wGen0.bagRef = 0
    ∧ Store.getBag
        [[("prompt", JVal.str "cat"),
          ("upscaled_image_size", JVal.int 4096)]] 0
        = dSet (Store.getBag [[("prompt", JVal.str "cat")]] 0)
            "upscaled_image_size" (JVal.int 4096)
    ∧ dGet (Store.getBag
        [[("prompt", JVal.str "cat"),
          ("upscaled_image_size", JVal.int 4096)]] 0) "upscaled_image_size"
        = some (JVal.int 4096)
    ∧ ∀ k, k ≠ "upscaled_image_size" →
        dGet (Store.getBag
          [[("prompt", JVal.str "cat"),
            ("upscaled_image_size", JVal.int 4096)]] 0) k
          = dGet (Store.getBag [[("prompt", JVal.str "cat")]] 0) k :=
  claim_C9_amended (fun _ => []) (fun _ => (1024, 1024)) wGen0
    4096 none [[("prompt", JVal.str "cat")]] [wPred]
    { img := { loadedBytes := some [0, 0, 0], gcsUri := none }, bagRef := 0 }
    [[("prompt", JVal.str "cat"),
      ("upscaled_image_size", JVal.int 4096)]]
    (by decide) rfl

/-! ### Claim C2 -/

theorem dHas_genSizeParams (a : GenArgs) (k : String)
    (h1 : k ≠ "sampleImageSize") (h2 : k ≠ "aspectRatio")
    (h3 : k ≠ "sampleCount") : dHas (genSizeParams a) k = false := by
  unfold genSizeParams
  rw [dHas_dSet_ne _ _ _ _ (Ne.symm h3)]
  split
  · rcases a.width with _ | w <;> rcases a.height with _ | h' <;>
      simp [dHas, dGet, dSet, Ne.symm h1, Ne.symm h2] <;>
      split <;>
      simp [dHas, dGet, dSet, Ne.symm h1, Ne.symm h2]
  · rfl

/-- Claim C2 as stated is false: supplying negative_prompt as the empty
string to generation, or dimension as 0 to get_embeddings, does not put
the corresponding key into the parameters object, although the claim
requires a supplied zero or empty value to appear. -/
theorem claim_C2_counterexample :
    dHas (buildGenRequest (fun _ => [])
        { prompt := "x", negative_prompt := some "" }).2.1 "negativePrompt"
      = false
    ∧ (buildEmbeddingRequest (fun _ => [])
        { contextual_text := some "t", dimension := some 0 }).map
      (fun ip => dHas ip.2 "dimension") = .ok false :=
  ⟨rfl, rfl⟩

/-- C2 (amended): an absent optional argument never appears as a key of
the outgoing parameters object. A supplied seed, guidance_scale,
language or output_gcs_uri always appears (including zero or empty
values), but negative_prompt and dimension are guarded by Python
truthiness: the empty string and 0 are treated as absent. -/
theorem claim_C2_amended (fetch : Fetcher) (a : GenArgs) (e : EmbArgs) :
    (dHas (buildGenRequest fetch a).2.1 "negativePrompt"
      = truthyStr a.negative_prompt)
    ∧ (dHas (buildGenRequest fetch a).2.1 "seed" = a.seed.isSome)
    ∧ (dHas (buildGenRequest fetch a).2.1 "guidanceScale"
      = a.guidance_scale.isSome)
    ∧ (dHas (buildGenRequest fetch a).2.1 "language" = a.language.isSome)
    ∧ (dHas (buildGenRequest fetch a).2.1 "storageUri"
      = a.output_gcs_uri.isSome)
    ∧ (∀ ip, buildEmbeddingRequest fetch e = .ok ip →
        dHas ip.2 "dimension" = truthyInt e.dimension) := by
  refine ⟨?_, ?_, ?_, ?_, ?_, ?_⟩
  · rcases hnp : a.negative_prompt with _ | np <;>
      rcases hsd : a.seed with _ | sd <;>
      rcases hgs : a.guidance_scale with _ | gsc <;>
      rcases hlg : a.language with _ | lg <;>
      rcases hog : a.output_gcs_uri with _ | og <;>
      first
        | (cases hni : np.isEmpty <;>
            simp [buildGenRequest, hnp, hsd, hgs, hlg, hog, hni, truthyStr,
              dHas_dSet_ne, dHas_dSet_self, dHas_genSizeParams])
        | simp [buildGenRequest, hnp, hsd, hgs, hlg, hog, truthyStr,
            dHas_dSet_ne, dHas_dSet_self, dHas_genSizeParams]
  · rcases hnp : a.negative_prompt with _ | np <;>
      rcases hsd : a.seed with _ | sd <;>
      rcases hgs : a.guidance_scale with _ | gsc <;>
      rcases hlg : a.language with _ | lg <;>
      rcases hog : a.output_gcs_uri with _ | og <;>
      first
        | (cases hni : np.isEmpty <;>
            simp [buildGenRequest, hnp, hsd, hgs, hlg, hog, hni, truthyStr,
              dHas_dSet_ne, dHas_dSet_self, dHas_genSizeParams])
        | simp [buildGenRequest, hnp, hsd, hgs, hlg, hog, truthyStr,
            dHas_dSet_ne, dHas_dSet_self, dHas_genSizeParams]
  · rcases hnp : a.negative_prompt with _ | np <;>
      rcases hsd : a.seed with _ | sd <;>
      rcases hgs : a.guidance_scale with _ | gsc <;>
      rcases hlg : a.language with _ | lg <;>
      rcases hog : a.output_gcs_uri with _ | og <;>
      first
        | (cases hni : np.isEmpty <;>
            simp [buildGenRequest, hnp, hsd, hgs, hlg, hog, hni, truthyStr,
              dHas_dSet_ne, dHas_dSet_self, dHas_genSizeParams])
        | simp [buildGenRequest, hnp, hsd, hgs, hlg, hog, truthyStr,
            dHas_dSet_ne, dHas_dSet_self, dHas_genSizeParams]
  · rcases hnp : a.negative_prompt with _ | np <;>
      rcases hsd : a.seed with _ | sd <;>
      rcases hgs : a.guidance_scale with _ | gsc <;>
      rcases hlg : a.language with _ | lg <;>
      rcases hog : a.output_gcs_uri with _ | og <;>
      first
        | (cases hni : np.isEmpty <;>
            simp [buildGenRequest, hnp, hsd, hgs, hlg, hog, hni, truthyStr,
              dHas_dSet_ne, dHas_dSet_self, dHas_genSizeParams])
        | simp [buildGenRequest, hnp, hsd, hgs, hlg, hog, truthyStr,
            dHas_dSet_ne, dHas_dSet_self, dHas_genSizeParams]
  · rcases hnp : a.negative_prompt with _ | np <;>
      rcases hsd : a.seed with _ | sd <;>
      rcases hgs : a.guidance_scale with _ | gsc <;>
      rcases hlg : a.language with _ | lg <;>
      rcases hog : a.output_gcs_uri with _ | og <;>
      first
        | (cases hni : np.isEmpty <;>
            simp [buildGenRequest, hnp, hsd, hgs, hlg, hog, hni, truthyStr,
              dHas_dSet_ne, dHas_dSet_self, dHas_genSizeParams])
        | simp [buildGenRequest, hnp, hsd, hgs, hlg, hog, truthyStr,
            dHas_dSet_ne, dHas_dSet_self, dHas_genSizeParams]
  · intro ip hok
    revert hok
    unfold buildEmbeddingRequest
    split
    · intro hok; exact absurd hok (by simp)
    · intro hok
      injection hok with hok
      subst hok
      rcases hdim : e.dimension with _ | n
      · simp [hdim, truthyInt, dHas, dGet]
      · by_cases hz : n = 0 <;>
          simp [hdim, hz, truthyInt, dHas_dSet_self, dHas, dGet]

/-- Witness for C2 (amended) instantiating the embedding conjunct at a
concrete successful call with dimension 128. -/
theorem claim_C2_witness :
    dHas (buildGenRequest (fun _ => [])
        { prompt := "x", seed := some 0 }).2.1 "seed"
      = (some (0 : Int)).isSome
    ∧ dHas ([("dimension", JVal.int 128)] : Bag) "dimension"
      = truthyInt (some 128) :=
  ⟨(claim_C2_amended (fun _ => []) { prompt := "x", seed := some 0 }
      {}).2.1,
   (claim_C2_amended (fun _ => []) { prompt := "x" }
      { contextual_text := some "t", dimension := some 128 }).2.2.2.2.2
     ([("text", JVal.str "t")], [("dimension", JVal.int 128)]) (by rfl)⟩

/-! ### Claim C7 -/

theorem dGet_sharedProvenance_ne (fetch : Fetcher) (ku kh : String)
    (img : Image) (d : Bag) (k : String) (h1 : k ≠ ku) (h2 : k ≠ kh) :
    dGet (sharedProvenance fetch ku kh img d) k = dGet d k := by
  unfold sharedProvenance
  cases hu : img.gcsUri with
  | none => simp [hu, dGet_dSet_ne _ _ _ _ (Ne.symm h2)]
  | some uri =>
      by_cases he : uri.isEmpty <;>
        simp [hu, he, dGet_dSet_ne _ _ _ _ (Ne.symm h1),
          dGet_dSet_ne _ _ _ _ (Ne.symm h2)]

/-- The shared bag right after the base-image provenance step of
buildGenRequest. -/
def genSharedBase (fetch : Fetcher) (a : GenArgs) : Bag :=
  match a.base_image with
  | none => [("prompt", JVal.str a.prompt),
      ("number_of_images_in_batch", JVal.int a.number_of_images)]
  | some bi => sharedProvenance fetch "base_image_uri" "base_image_hash" bi
      [("prompt", JVal.str a.prompt),
        ("number_of_images_in_batch", JVal.int a.number_of_images)]

/-- The shared bag right after the mask provenance step of
buildGenRequest. -/
def genSharedMask (fetch : Fetcher) (a : GenArgs) : Bag :=
  match a.mask with
  | none => genSharedBase fetch a
  | some m => sharedProvenance fetch "mask_uri" "mask_hash" m
      (genSharedBase fetch a)

/-- Lookups of keys other than the five optional-argument keys read
through the final shared bag to the mask stage. -/
theorem dGet_genShared_tail5 (fetch : Fetcher) (a : GenArgs) (k : String)
    (h1 : k ≠ "negative_prompt") (h2 : k ≠ "seed")
    (h3 : k ≠ "guidance_scale") (h4 : k ≠ "language")
    (h5 : k ≠ "storage_uri") :
    dGet (buildGenRequest fetch a).2.2 k = dGet (genSharedMask fetch a) k := by
  rcases hnp : a.negative_prompt with _ | np <;>
    rcases hsd : a.seed with _ | sd <;>
    rcases hgs : a.guidance_scale with _ | gsc <;>
    rcases hlg : a.language with _ | lg <;>
    rcases hog : a.output_gcs_uri with _ | og <;>
    first
      | (cases hni : np.isEmpty <;>
          simp [buildGenRequest, genSharedMask, genSharedBase, hnp, hsd,
            hgs, hlg, hog, hni, dGet_dSet_ne _ _ _ _ (Ne.symm h1),
            dGet_dSet_ne _ _ _ _ (Ne.symm h2),
            dGet_dSet_ne _ _ _ _ (Ne.symm h3),
            dGet_dSet_ne _ _ _ _ (Ne.symm h4),
            dGet_dSet_ne _ _ _ _ (Ne.symm h5)])
      | simp [buildGenRequest, genSharedMask, genSharedBase, hnp, hsd,
          hgs, hlg, hog, dGet_dSet_ne _ _ _ _ (Ne.symm h1),
          dGet_dSet_ne _ _ _ _ (Ne.symm h2),
          dGet_dSet_ne _ _ _ _ (Ne.symm h3),
          dGet_dSet_ne _ _ _ _ (Ne.symm h4),
          dGet_dSet_ne _ _ _ _ (Ne.symm h5)]

/-- Lookups of keys not touched after the base-image step read through
the final shared bag to the base-image stage. -/
theorem dGet_genShared_tail (fetch : Fetcher) (a : GenArgs) (k : String)
    (h1 : k ≠ "negative_prompt") (h2 : k ≠ "seed")
    (h3 : k ≠ "guidance_scale") (h4 : k ≠ "language")
    (h5 : k ≠ "storage_uri") (h6 : k ≠ "mask_uri") (h7 : k ≠ "mask_hash") :
    dGet (buildGenRequest fetch a).2.2 k = dGet (genSharedBase fetch a) k := by
  rw [dGet_genShared_tail5 fetch a k h1 h2 h3 h4 h5]
  rcases hmk : a.mask with _ | m
  · simp [genSharedMask, hmk]
  · simp [genSharedMask, hmk, dGet_sharedProvenance_ne _ _ _ _ _ _ h6 h7]

/-- Keys other than the base-stage keys are absent from the base-stage
shared bag. -/
theorem dGet_genSharedBase_other (fetch : Fetcher) (a : GenArgs)
    (k : String) (h1 : k ≠ "prompt") (h2 : k ≠ "number_of_images_in_batch")
    (h3 : k ≠ "base_image_uri") (h4 : k ≠ "base_image_hash") :
    dGet (genSharedBase fetch a) k = none := by
  rcases hbi : a.base_image with _ | bi
  · simp [genSharedBase, hbi, dGet, Ne.symm h1, Ne.symm h2]
  · rcases hbu : bi.gcsUri with _ | uri
    · simp [genSharedBase, hbi, sharedProvenance, hbu,
        dGet_dSet_ne _ _ _ _ (Ne.symm h4), dGet, Ne.symm h1, Ne.symm h2]
    · by_cases he : uri.isEmpty <;>
        simp [genSharedBase, hbi, sharedProvenance, hbu, he,
          dGet_dSet_ne _ _ _ _ (Ne.symm h3),
          dGet_dSet_ne _ _ _ _ (Ne.symm h4), dGet, Ne.symm h1, Ne.symm h2]

/-- C7: with a base image supplied, the shared generation parameters
record base_image_uri (and the instance carries the URI reference) when
the image is remote, and otherwise record base_image_hash as the hex
SHA-1 digest of exactly the image's resolved bytes (with the bytes
embedded inline in the instance); the two keys are never both recorded,
and the mask is treated the same way under mask_uri/mask_hash. -/
theorem claim_C7_provenance (fetch : Fetcher) (a : GenArgs) :
    (∀ bi uri, a.base_image = some bi → bi.gcsUri = some uri →
      uri.isEmpty = false →
      dGet (buildGenRequest fetch a).2.2 "base_image_uri"
        = some (JVal.str uri)
      ∧ dGet (buildGenRequest fetch a).2.2 "base_image_hash" = none
      ∧ dGet (buildGenRequest fetch a).1 "image"
        = some (JVal.obj [("gcsUri", JVal.str uri)]))
    ∧ (∀ bi, a.base_image = some bi → truthyStr bi.gcsUri = false →
      dGet (buildGenRequest fetch a).2.2 "base_image_hash"
        = some (JVal.str (sha1Hex (Image.imageBytes fetch bi)))
      ∧ dGet (buildGenRequest fetch a).2.2 "base_image_uri" = none
      ∧ dGet (buildGenRequest fetch a).1 "image"
        = some (JVal.obj [("bytesBase64Encoded",
            JVal.str (b64encode (Image.imageBytes fetch bi)))]))
    ∧ ¬(dHas (buildGenRequest fetch a).2.2 "base_image_uri" = true
        ∧ dHas (buildGenRequest fetch a).2.2 "base_image_hash" = true)
    ∧ (∀ m uri, a.mask = some m → m.gcsUri = some uri →
      uri.isEmpty = false →
      dGet (buildGenRequest fetch a).2.2 "mask_uri" = some (JVal.str uri)
      ∧ dGet (buildGenRequest fetch a).2.2 "mask_hash" = none
      ∧ dGet (buildGenRequest fetch a).1 "mask"
        = some (JVal.obj [("image",
            JVal.obj [("gcsUri", JVal.str uri)])]))
    ∧ (∀ m, a.mask = some m → truthyStr m.gcsUri = false →
      dGet (buildGenRequest fetch a).2.2 "mask_hash"
        = some (JVal.str (sha1Hex (Image.imageBytes fetch m)))
      ∧ dGet (buildGenRequest fetch a).2.2 "mask_uri" = none
      ∧ dGet (buildGenRequest fetch a).1 "mask"
        = some (JVal.obj [("image",
            JVal.obj [("bytesBase64Encoded",
              JVal.str (b64encode (Image.imageBytes fetch m)))])]))
    ∧ ¬(dHas (buildGenRequest fetch a).2.2 "mask_uri" = true
        ∧ dHas (buildGenRequest fetch a).2.2 "mask_hash" = true) := by
  refine ⟨?_, ?_, ?_, ?_, ?_, ?_⟩
  · intro bi uri hbi huri hne
    refine ⟨?_, ?_, ?_⟩
    · rw [dGet_genShared_tail fetch a "base_image_uri" (by decide)
        (by decide) (by decide) (by decide) (by decide) (by decide)
        (by decide)]
      simp [genSharedBase, hbi, sharedProvenance, huri, hne,
        dGet_dSet_self]
    · rw [dGet_genShared_tail fetch a "base_image_hash" (by decide)
        (by decide) (by decide) (by decide) (by decide) (by decide)
        (by decide)]
      simp [genSharedBase, hbi, sharedProvenance, huri, hne, dGet, dSet]
    · rcases hmk : a.mask with _ | m <;>
        simp [buildGenRequest, hbi, hmk, imageInstanceEntry, huri, hne,
          dGet, dSet]
  · intro bi hbi hfal
    refine ⟨?_, ?_, ?_⟩
    · rw [dGet_genShared_tail fetch a "base_image_hash" (by decide)
        (by decide) (by decide) (by decide) (by decide) (by decide)
        (by decide)]
      rcases hbu : bi.gcsUri with _ | uri
      · simp [genSharedBase, hbi, sharedProvenance, hbu, dGet_dSet_self]
      · have he : uri.isEmpty = true := by
          simpa [truthyStr, hbu] using hfal
        simp [genSharedBase, hbi, sharedProvenance, hbu, he,
          dGet_dSet_self]
    · rw [dGet_genShared_tail fetch a "base_image_uri" (by decide)
        (by decide) (by decide) (by decide) (by decide) (by decide)
        (by decide)]
      rcases hbu : bi.gcsUri with _ | uri
      · simp [genSharedBase, hbi, sharedProvenance, hbu, dGet, dSet]
      · have he : uri.isEmpty = true := by
          simpa [truthyStr, hbu] using hfal
        simp [genSharedBase, hbi, sharedProvenance, hbu, he, dGet, dSet]
    · rcases hbu : bi.gcsUri with _ | uri
      · rcases hmk : a.mask with _ | m <;>
          simp [buildGenRequest, hbi, hmk, imageInstanceEntry, hbu,
            Image.asBase64String, dGet, dSet]
      · have he : uri.isEmpty = true := by
          simpa [truthyStr, hbu] using hfal
        rcases hmk : a.mask with _ | m <;>
          simp [buildGenRequest, hbi, hmk, imageInstanceEntry, hbu, he,
            Image.asBase64String, dGet, dSet]
  · rintro ⟨hu, hh⟩
    rw [dHas, dGet_genShared_tail fetch a "base_image_uri" (by decide)
      (by decide) (by decide) (by decide) (by decide) (by decide)
      (by decide)] at hu
    rw [dHas, dGet_genShared_tail fetch a "base_image_hash" (by decide)
      (by decide) (by decide) (by decide) (by decide) (by decide)
      (by decide)] at hh
    rcases hbi : a.base_image with _ | bi
    · simp [genSharedBase, hbi, dGet] at hu
    · rcases hbu : bi.gcsUri with _ | uri
      · simp [genSharedBase, hbi, sharedProvenance, hbu, dGet, dSet] at hu
      · by_cases he : uri.isEmpty
        · simp [genSharedBase, hbi, sharedProvenance, hbu, he, dGet,
            dSet] at hu
        · simp [genSharedBase, hbi, sharedProvenance, hbu, he, dGet,
            dSet] at hh
  · intro m uri hmk huri hne
    refine ⟨?_, ?_, ?_⟩
    · rw [dGet_genShared_tail5 fetch a "mask_uri" (by decide) (by decide)
        (by decide) (by decide) (by decide)]
      simp [genSharedMask, hmk, sharedProvenance, huri, hne,
        dGet_dSet_self]
    · rw [dGet_genShared_tail5 fetch a "mask_hash" (by decide) (by decide)
        (by decide) (by decide) (by decide)]
      simp only [genSharedMask, hmk, sharedProvenance, huri, hne,
        Bool.false_eq_true, if_false]
      rw [dGet_dSet_ne _ _ _ _ (by decide)]
      exact dGet_genSharedBase_other fetch a "mask_hash" (by decide)
        (by decide) (by decide) (by decide)
    · rcases hbi : a.base_image with _ | bi <;>
        simp [buildGenRequest, hbi, hmk, imageInstanceEntry, huri, hne,
          dGet, dSet]
  · intro m hmk hfal
    refine ⟨?_, ?_, ?_⟩
    · rw [dGet_genShared_tail5 fetch a "mask_hash" (by decide) (by decide)
        (by decide) (by decide) (by decide)]
      rcases hmu : m.gcsUri with _ | uri
      · simp [genSharedMask, hmk, sharedProvenance, hmu, dGet_dSet_self]
      · have he : uri.isEmpty = true := by
          simpa [truthyStr, hmu] using hfal
        simp [genSharedMask, hmk, sharedProvenance, hmu, he,
          dGet_dSet_self]
    · rw [dGet_genShared_tail5 fetch a "mask_uri" (by decide) (by decide)
        (by decide) (by decide) (by decide)]
      have hrest : dGet (genSharedBase fetch a) "mask_uri" = none :=
        dGet_genSharedBase_other fetch a "mask_uri" (by decide) (by decide)
          (by decide) (by decide)
      rcases hmu : m.gcsUri with _ | uri
      · simp [genSharedMask, hmk, sharedProvenance, hmu,
          dGet_dSet_ne _ _ _ _ (by decide : ("mask_hash" : String) ≠ "mask_uri"),
          hrest]
      · have he : uri.isEmpty = true := by
          simpa [truthyStr, hmu] using hfal
        simp [genSharedMask, hmk, sharedProvenance, hmu, he,
          dGet_dSet_ne _ _ _ _ (by decide : ("mask_hash" : String) ≠ "mask_uri"),
          hrest]
    · rcases hmu : m.gcsUri with _ | uri
      · rcases hbi : a.base_image with _ | bi <;>
          simp [buildGenRequest, hbi, hmk, imageInstanceEntry, hmu,
            Image.asBase64String, dGet, dSet]
      · have he : uri.isEmpty = true := by
          simpa [truthyStr, hmu] using hfal
        rcases hbi : a.base_image with _ | bi <;>
          simp [buildGenRequest, hbi, hmk, imageInstanceEntry, hmu, he,
            Image.asBase64String, dGet, dSet]
  · rintro ⟨hu, hh⟩
    rw [dHas, dGet_genShared_tail5 fetch a "mask_uri" (by decide)
      (by decide) (by decide) (by decide) (by decide)] at hu
    rw [dHas, dGet_genShared_tail5 fetch a "mask_hash" (by decide)
      (by decide) (by decide) (by decide) (by decide)] at hh
    have hbu : dGet (genSharedBase fetch a) "mask_uri" = none :=
      dGet_genSharedBase_other fetch a "mask_uri" (by decide) (by decide)
        (by decide) (by decide)
    have hbh : dGet (genSharedBase fetch a) "mask_hash" = none :=
      dGet_genSharedBase_other fetch a "mask_hash" (by decide) (by decide)
        (by decide) (by decide)
    rcases hmk : a.mask with _ | m
    · simp [genSharedMask, hmk, hbu] at hu
    · rcases hmu : m.gcsUri with _ | uri
      · rw [genSharedMask] at hu
        simp only [hmk] at hu
        rw [sharedProvenance] at hu
        simp only [hmu] at hu
        rw [dGet_dSet_ne _ _ _ _ (by decide :
          ("mask_hash" : String) ≠ "mask_uri"), hbu] at hu
        simp at hu
      · by_cases he : uri.isEmpty
        · rw [genSharedMask] at hu
          simp only [hmk] at hu
          rw [sharedProvenance] at hu
          simp only [hmu, he, if_true] at hu
          rw [dGet_dSet_ne _ _ _ _ (by decide :
            ("mask_hash" : String) ≠ "mask_uri"), hbu] at hu
          simp at hu
        · rw [genSharedMask] at hh
          simp only [hmk] at hh
          rw [sharedProvenance] at hh
          simp only [hmu, he, Bool.false_eq_true, if_false] at hh
          rw [dGet_dSet_ne _ _ _ _ (by decide :
            ("mask_uri" : String) ≠ "mask_hash"), hbh] at hh
          simp at hh

/-- Witness for C7 at a concrete call: an inline base image records a
hash and no URI; a remote mask records its URI and no hash. -/
theorem claim_C7_witness :
    dGet (buildGenRequest (fun _ => [])
        { prompt := "x", base_image := some wImg5,
          mask := some wImgRemote }).2.2 "base_image_hash"
      = some (JVal.str (sha1Hex (Image.imageBytes (fun _ => []) wImg5)))
    ∧ dGet (buildGenRequest (fun _ => [])
        { prompt := "x", base_image := some wImg5,
          mask := some wImgRemote }).2.2 "base_image_uri" = none
    ∧ dGet (buildGenRequest (fun _ => [])
        { prompt := "x", base_image := some wImg5,
          mask := some wImgRemote }).2.2 "mask_uri"
      = some (JVal.str "gs://b/i.png")
    ∧ dGet (buildGenRequest (fun _ => [])
        { prompt := "x", base_image := some wImg5,
          mask := some wImgRemote }).2.2 "mask_hash" = none :=
  ⟨((claim_C7_provenance (fun _ => [])
      { prompt := "x", base_image := some wImg5,
        mask := some wImgRemote }).2.1 wImg5 rfl rfl).1,
   ((claim_C7_provenance (fun _ => [])
      { prompt := "x", base_image := some wImg5,
        mask := some wImgRemote }).2.1 wImg5 rfl rfl).2.1,
   ((claim_C7_provenance (fun _ => [])
      { prompt := "x", base_image := some wImg5,
        mask := some wImgRemote }).2.2.2.1 wImgRemote "gs://b/i.png"
      rfl rfl rfl).1,
   ((claim_C7_provenance (fun _ => [])
      { prompt := "x", base_image := some wImg5,
        mask := some wImgRemote }).2.2.2.1 wImgRemote "gs://b/i.png"
      rfl rfl rfl).2.1⟩

/-! ### Claim C6 -/

theorem videoInstanceEntry_keys (fetch : Fetcher) (vid : Video) :
    dHas (videoInstanceEntry fetch vid) "gcsUri" = truthyStr vid.gcsUri
    ∧ dHas (videoInstanceEntry fetch vid) "bytesBase64Encoded"
      = !truthyStr vid.gcsUri := by
  constructor <;>
    (rcases hu : vid.gcsUri with _ | uri
     · simp [videoInstanceEntry, hu, truthyStr, dHas, dGet]
     · by_cases he : uri.isEmpty <;>
         simp [videoInstanceEntry, hu, he, truthyStr, dHas, dGet])

theorem videoCfgEntry_keys (fetch : Fetcher) (vid : Video) (w : JVal) :
    dHas (dSet (videoInstanceEntry fetch vid) "videoSegmentConfig" w)
        "gcsUri" = truthyStr vid.gcsUri
    ∧ dHas (dSet (videoInstanceEntry fetch vid) "videoSegmentConfig" w)
        "bytesBase64Encoded" = !truthyStr vid.gcsUri := by
  rw [dHas_dSet_ne _ _ _ _ (by decide), dHas_dSet_ne _ _ _ _ (by decide)]
  exact videoInstanceEntry_keys fetch vid

/-- C6: every media reference placed into a request instance is
serialized with exactly one of gcsUri and bytesBase64Encoded, never
both and never neither: the URI when the reference has a truthy remote
URI, otherwise the base64 encoding of the resolved bytes; and each
request builder of the module (generation and edit via base image and
mask, upscale, captioning, question answering, embedding) places
exactly this entry into its instance. -/
theorem claim_C6_exactly_one (fetch : Fetcher) (img : Image) (vid : Video) :
    (dHas (imageInstanceEntry fetch img) "gcsUri" = truthyStr img.gcsUri
      ∧ dHas (imageInstanceEntry fetch img) "bytesBase64Encoded"
        = !truthyStr img.gcsUri)
    ∧ (truthyStr img.gcsUri = false →
        imageInstanceEntry fetch img
          = [("bytesBase64Encoded",
              JVal.str (b64encode (Image.imageBytes fetch img)))])
    ∧ (∀ uri, img.gcsUri = some uri → uri.isEmpty = false →
        imageInstanceEntry fetch img = [("gcsUri", JVal.str uri)])
    ∧ (dHas (videoInstanceEntry fetch vid) "gcsUri" = truthyStr vid.gcsUri
      ∧ dHas (videoInstanceEntry fetch vid) "bytesBase64Encoded"
        = !truthyStr vid.gcsUri)
    ∧ (∀ a bi, a.base_image = some bi →
        dGet (buildGenRequest fetch a).1 "image"
          = some (JVal.obj (imageInstanceEntry fetch bi)))
    ∧ (∀ a m, a.mask = some m →
        dGet (buildGenRequest fetch a).1 "mask"
          = some (JVal.obj
              [("image", JVal.obj (imageInstanceEntry fetch m))]))
    ∧ (∀ up, dGet (buildUpscaleInstance fetch up) "image"
        = some (JVal.obj (imageInstanceEntry fetch up.toImage)))
    ∧ (∀ nres lang ogu,
        dGet (buildCaptionRequest fetch img nres lang ogu).1 "image"
          = some (JVal.obj (imageInstanceEntry fetch img)))
    ∧ (∀ q nres,
        dGet (buildAskQuestionRequest fetch img q nres).1 "image"
          = some (JVal.obj (imageInstanceEntry fetch img)))
    ∧ (∀ e ip, buildEmbeddingRequest fetch e = .ok ip →
        e.image = some img →
        dGet ip.1 "image" = some (JVal.obj (imageInstanceEntry fetch img)))
    ∧ (∀ e ip vb, buildEmbeddingRequest fetch e = .ok ip →
        e.video = some vid → dGet ip.1 "video" = some (JVal.obj vb) →
        dHas vb "gcsUri" = truthyStr vid.gcsUri
        ∧ dHas vb "bytesBase64Encoded" = !truthyStr vid.gcsUri) := by
  refine ⟨⟨?_, ?_⟩, ?_, ?_, ⟨?_, ?_⟩, ?_, ?_, ?_, ?_, ?_, ?_, ?_⟩
  · rcases hu : img.gcsUri with _ | uri
    · simp [imageInstanceEntry, hu, truthyStr, dHas, dGet]
    · by_cases he : uri.isEmpty <;>
        simp [imageInstanceEntry, hu, he, truthyStr, dHas, dGet]
  · rcases hu : img.gcsUri with _ | uri
    · simp [imageInstanceEntry, hu, truthyStr, dHas, dGet]
    · by_cases he : uri.isEmpty <;>
        simp [imageInstanceEntry, hu, he, truthyStr, dHas, dGet]
  · intro hfal
    rcases hu : img.gcsUri with _ | uri
    · simp [imageInstanceEntry, hu, Image.asBase64String]
    · have he : uri.isEmpty = true := by simpa [truthyStr, hu] using hfal
      simp [imageInstanceEntry, hu, he, Image.asBase64String]
  · intro uri hu hne
    simp [imageInstanceEntry, hu, hne]
  · rcases hu : vid.gcsUri with _ | uri
    · simp [videoInstanceEntry, hu, truthyStr, dHas, dGet]
    · by_cases he : uri.isEmpty <;>
        simp [videoInstanceEntry, hu, he, truthyStr, dHas, dGet]
  · rcases hu : vid.gcsUri with _ | uri
    · simp [videoInstanceEntry, hu, truthyStr, dHas, dGet]
    · by_cases he : uri.isEmpty <;>
        simp [videoInstanceEntry, hu, he, truthyStr, dHas, dGet]
  · intro a bi hbi
    rcases hmk : a.mask with _ | m <;>
      simp [buildGenRequest, hbi, hmk, dGet, dSet]
  · intro a m hmk
    rcases hbi : a.base_image with _ | bi <;>
      simp [buildGenRequest, hbi, hmk, dGet, dSet]
  · intro up
    simp [buildUpscaleInstance, dGet, dSet]
  · intro nres lang ogu
    rcases hog : ogu with _ | u <;>
      simp [buildCaptionRequest, hog, dGet, dSet]
  · intro q nres
    simp [buildAskQuestionRequest, dGet, dSet]
  · intro e ip hok himg
    revert hok
    unfold buildEmbeddingRequest
    split
    · intro hok; exact absurd hok (by simp)
    · intro hok
      injection hok with hok
      subst hok
      rcases hvid : e.video with _ | v <;>
        rcases hcfg : e.video_segment_config with _ | cfg <;>
        rcases htx : e.contextual_text with _ | t <;>
        first
          | (cases hte : t.isEmpty <;>
              simp [himg, hvid, hcfg, htx, hte, dGet, dSet])
          | simp [himg, hvid, hcfg, htx, dGet, dSet]
  · intro e ip vb hok hvid hlook
    revert hok
    unfold buildEmbeddingRequest
    split
    · intro hok; exact absurd hok (by simp)
    · intro hok
      injection hok with hok
      subst hok
      rcases himg : e.image with _ | im2 <;>
        rcases hcfg : e.video_segment_config with _ | cfg <;>
        rcases htx : e.contextual_text with _ | t
      all_goals
        first
          | (cases hte : t.isEmpty <;>
              simp [himg, hvid, hcfg, htx, hte, dGet, dSet] at hlook <;>
              subst hlook <;>
              first
                | exact videoInstanceEntry_keys fetch vid
                | exact videoCfgEntry_keys fetch vid _)
          | (simp [himg, hvid, hcfg, htx, dGet, dSet] at hlook <;>
              subst hlook <;>
              first
                | exact videoInstanceEntry_keys fetch vid
                | exact videoCfgEntry_keys fetch vid _)

/-- Witness for C6 at concrete references: a remote image serializes to
a pure gcsUri entry, an inline image to a pure bytesBase64Encoded
entry, and the captioning builder embeds exactly that entry. -/
theorem claim_C6_witness :
    imageInstanceEntry (fun _ => []) wImgRemote
      = [("gcsUri", JVal.str "gs://b/i.png")]
    ∧ imageInstanceEntry (fun _ => []) wImg5
      = [("bytesBase64Encoded",
          JVal.str (b64encode (Image.imageBytes (fun _ => []) wImg5)))]
    ∧ dGet (buildCaptionRequest (fun _ => []) wImg5 1 "en" none).1 "image"
      = some (JVal.obj (imageInstanceEntry (fun _ => []) wImg5)) :=
  ⟨(claim_C6_exactly_one (fun _ => []) wImgRemote wVid).2.2.1
      "gs://b/i.png" rfl rfl,
   (claim_C6_exactly_one (fun _ => []) wImg5 wVid).2.1 rfl,
   (claim_C6_exactly_one (fun _ => []) wImg5 wVid).2.2.2.2.2.2.2.1
      1 "en" none⟩

/-! ### Claim C3 -/

/-- Repeated accesses on an image whose byte cache is already populated
perform no fetch and keep returning the cached bytes. -/
theorem imageBytesCalls_cached (fetch : Fetcher) (b : ByteStr)
    (u : Option String) (n : Nat) :
    Image.imageBytesCalls fetch { loadedBytes := some b, gcsUri := u } n
      = (List.replicate n b, { loadedBytes := some b, gcsUri := u }, 0) := by
  induction n with
  | zero => rfl
  | succ n ih =>
      simp [Image.imageBytesCalls, Image.imageBytesStep, ih,
        List.replicate]

/-- Accesses on an unfetched remote image: the first access fetches and
caches, all later accesses reuse the cache. -/
theorem imageBytesCalls_uncached (fetch : Fetcher) (u : Option String)
    (n : Nat) :
    Image.imageBytesCalls fetch { loadedBytes := none, gcsUri := u } (n + 1)
      = (fetch u :: List.replicate n (fetch u),
         { loadedBytes := some (fetch u), gcsUri := u }, 1) := by
  simp [Image.imageBytesCalls, Image.imageBytesStep,
    imageBytesCalls_cached]

/-- Repeated accesses on a video whose byte cache is already populated
perform no fetch and keep returning the cached bytes. -/
theorem videoBytesCalls_cached (fetch : Fetcher) (b : ByteStr)
    (u : Option String) (n : Nat) :
    Video.videoBytesCalls fetch { loadedBytes := some b, gcsUri := u } n
      = (List.replicate n b, { loadedBytes := some b, gcsUri := u }, 0) := by
  induction n with
  | zero => rfl
  | succ n ih =>
      simp [Video.videoBytesCalls, Video.videoBytesStep, ih,
        List.replicate]

/-- Accesses on an unfetched remote video: the first access fetches and
caches, all later accesses reuse the cache. -/
theorem videoBytesCalls_uncached (fetch : Fetcher) (u : Option String)
    (n : Nat) :
    Video.videoBytesCalls fetch { loadedBytes := none, gcsUri := u } (n + 1)
      = (fetch u :: List.replicate n (fetch u),
         { loadedBytes := some (fetch u), gcsUri := u }, 1) := by
  simp [Video.videoBytesCalls, Video.videoBytesStep,
    videoBytesCalls_cached]

/-- C3: for an Image or Video constructed from a remote URI, any number
n of accesses to the resolved-bytes property performs min n 1 storage
fetches — exactly one no matter how often it is read — every access
returns the fetched bytes, and from the first access on the state holds
the write-once cache; for an Image or Video constructed from inline
bytes no access ever fetches and every access returns those bytes with
the state unchanged. -/
theorem claim_C3_single_fetch (fetch : Fetcher) (n : Nat) :
    (∀ u img, Image.init none (some u) = .ok img →
      (Image.imageBytesCalls fetch img n).2.2 = min n 1
      ∧ (∀ x ∈ (Image.imageBytesCalls fetch img n).1, x = fetch (some u))
      ∧ (1 ≤ n → (Image.imageBytesCalls fetch img n).2.1
          = { loadedBytes := some (fetch (some u)), gcsUri := some u }))
    ∧ (∀ b img, Image.init (some b) none = .ok img →
      (Image.imageBytesCalls fetch img n).2.2 = 0
      ∧ (∀ x ∈ (Image.imageBytesCalls fetch img n).1, x = b)
      ∧ (Image.imageBytesCalls fetch img n).2.1 = img)
    ∧ (∀ u vid, Video.init none (some u) = .ok vid →
      (Video.videoBytesCalls fetch vid n).2.2 = min n 1
      ∧ (∀ x ∈ (Video.videoBytesCalls fetch vid n).1, x = fetch (some u))
      ∧ (1 ≤ n → (Video.videoBytesCalls fetch vid n).2.1
          = { loadedBytes := some (fetch (some u)), gcsUri := some u }))
    ∧ (∀ b vid, Video.init (some b) none = .ok vid →
      (Video.videoBytesCalls fetch vid n).2.2 = 0
      ∧ (∀ x ∈ (Video.videoBytesCalls fetch vid n).1, x = b)
      ∧ (Video.videoBytesCalls fetch vid n).2.1 = vid) := by
  refine ⟨?_, ?_, ?_, ?_⟩
  · intro u img hinit
    have himg : img = { loadedBytes := none, gcsUri := some u } := by
      unfold Image.init at hinit
      split at hinit
      · cases hinit
      · injection hinit with h; exact h.symm
    subst himg
    cases n with
    | zero => exact ⟨rfl, by simp [Image.imageBytesCalls], by omega⟩
    | succ n =>
        rw [imageBytesCalls_uncached]
        refine ⟨by simp, ?_, fun _ => rfl⟩
        intro x hx
        rcases List.mem_cons.mp hx with hx' | hx'
        · exact hx'
        · exact List.eq_of_mem_replicate hx'
  · intro b img hinit
    have himg : img = { loadedBytes := some b, gcsUri := none } := by
      unfold Image.init at hinit
      split at hinit
      · cases hinit
      · injection hinit with h; exact h.symm
    subst himg
    rw [imageBytesCalls_cached]
    exact ⟨rfl, fun x hx => List.eq_of_mem_replicate hx, rfl⟩
  · intro u vid hinit
    have hvid : vid = { loadedBytes := none, gcsUri := some u } := by
      unfold Video.init at hinit
      split at hinit
      · cases hinit
      · injection hinit with h; exact h.symm
    subst hvid
    cases n with
    | zero => exact ⟨rfl, by simp [Video.videoBytesCalls], by omega⟩
    | succ n =>
        rw [videoBytesCalls_uncached]
        refine ⟨by simp, ?_, fun _ => rfl⟩
        intro x hx
        rcases List.mem_cons.mp hx with hx' | hx'
        · exact hx'
        · exact List.eq_of_mem_replicate hx'
  · intro b vid hinit
    have hvid : vid = { loadedBytes := some b, gcsUri := none } := by
      unfold Video.init at hinit
      split at hinit
      · cases hinit
      · injection hinit with h; exact h.symm
    subst hvid
    rw [videoBytesCalls_cached]
    exact ⟨rfl, fun x hx => List.eq_of_mem_replicate hx, rfl⟩

/-- Witness for C3: three accesses on a concrete remote image fetch
once and always return the fetched bytes; three accesses on a concrete
inline image never fetch; likewise for a concrete remote and a concrete
inline video. -/
theorem claim_C3_witness :
    ((Image.imageBytesCalls (fun _ => [9]) wImgRemote 3).2.2 = min 3 1
      ∧ (∀ x ∈ (Image.imageBytesCalls (fun _ => [9]) wImgRemote 3).1,
          x = (fun _ : Option String => [9]) (some "gs://b/i.png"))
      ∧ (1 ≤ 3 → (Image.imageBytesCalls (fun _ => [9]) wImgRemote 3).2.1
          = { loadedBytes :=
                some ((fun _ : Option String => [9]) (some "gs://b/i.png")),
              gcsUri := some "gs://b/i.png" }))
    ∧ ((Image.imageBytesCalls (fun _ => [9]) wImg5 3).2.2 = 0
      ∧ (∀ x ∈ (Image.imageBytesCalls (fun _ => [9]) wImg5 3).1, x = [5])
      ∧ (Image.imageBytesCalls (fun _ => [9]) wImg5 3).2.1 = wImg5)
    ∧ ((Video.videoBytesCalls (fun _ => [9]) wVidRemote 3).2.2 = min 3 1
      ∧ (∀ x ∈ (Video.videoBytesCalls (fun _ => [9]) wVidRemote 3).1,
          x = (fun _ : Option String => [9]) (some "gs://b/v.mp4"))
      ∧ (1 ≤ 3 → (Video.videoBytesCalls (fun _ => [9]) wVidRemote 3).2.1
          = { loadedBytes :=
                some ((fun _ : Option String => [9]) (some "gs://b/v.mp4")),
              gcsUri := some "gs://b/v.mp4" }))
    ∧ ((Video.videoBytesCalls (fun _ => [9]) wVid 3).2.2 = 0
      ∧ (∀ x ∈ (Video.videoBytesCalls (fun _ => [9]) wVid 3).1, x = [7])
      ∧ (Video.videoBytesCalls (fun _ => [9]) wVid 3).2.1 = wVid) :=
  ⟨(claim_C3_single_fetch (fun _ => [9]) 3).1 "gs://b/i.png" wImgRemote
      rfl,
   (claim_C3_single_fetch (fun _ => [9]) 3).2.1 [5] wImg5 rfl,
   (claim_C3_single_fetch (fun _ => [9]) 3).2.2.1 "gs://b/v.mp4" wVidRemote
      rfl,
   (claim_C3_single_fetch (fun _ => [9]) 3).2.2.2 [7] wVid rfl⟩

/-! ### Claim C5 -/

theorem Store.getBag_append_left (st st2 : Store) (r : Nat)
    (h : r < st.length) :
    Store.getBag (st ++ st2) r = Store.getBag st r := by
  simp [Store.getBag, List.getD, List.getElem?_append_left h]

theorem Store.getBag_concat_length (st : Store) (b : Bag) :
    Store.getBag (st ++ [b]) st.length = b := by
  simp [Store.getBag, List.getD, List.getElem?_concat_length]

theorem Store.getBag_setBag_ne (st : Store) (r r2 : Nat) (b : Bag)
    (h : r ≠ r2) :
    Store.getBag (Store.setBag st r b) r2 = Store.getBag st r2 := by
  simp [Store.getBag, Store.setBag, List.getD, List.getElem?_set_ne h]

/-- Specification of the response-decode loop: on success it returns
one GeneratedImage per prediction, in order; their bags live in the
freshly allocated consecutive store slots past the incoming store, each
holding a copy of the shared bag extended with the batch index; slots
of the incoming store are untouched. -/
theorem decodeGenPredictions_spec (shared : Bag) (preds : List Prediction) :
    ∀ idx store gis st2,
    decodeGenPredictions shared idx preds store = .ok (gis, st2) →
    gis.length = preds.length
    ∧ st2.length = store.length + preds.length
    ∧ (∀ r, r < store.length → Store.getBag st2 r = Store.getBag store r)
    ∧ (∀ i, i < preds.length →
        (gis.getD i wGen0).bagRef = store.length + i
        ∧ Store.getBag st2 (store.length + i)
          = dSet shared "index_of_image_in_batch" (JVal.int (idx + i))) := by
  induction preds with
  | nil =>
      intro idx store gis st2 h
      unfold decodeGenPredictions at h
      injection h with h
      injection h with h1 h2
      subst h1
      subst h2
      exact ⟨rfl, by simp, fun r _ => rfl, fun i hi => absurd hi (by simp)⟩
  | cons p rest ih =>
      intro idx store gis st2 h
      unfold decodeGenPredictions at h
      simp only [Store.alloc] at h
      cases hinit : Image.init (predImageBytes p) p.gcsUri with
      | error e => simp only [hinit] at h; cases h
      | ok im =>
          simp only [hinit] at h
          cases hrec : decodeGenPredictions shared (idx + 1) rest
              (store ++ [dSet shared "index_of_image_in_batch"
                (JVal.int idx)]) with
          | error e => simp only [hrec] at h; cases h
          | ok pr =>
              obtain ⟨gis', st2'⟩ := pr
              simp only [hrec] at h
              injection h with h
              injection h with h1 h2
              subst h1
              subst h2
              obtain ⟨ihlen, ihstlen, ihframe, ihitem⟩ :=
                ih (idx + 1) _ gis' st2' hrec
              have hstorelen :
                  (store ++ [dSet shared "index_of_image_in_batch"
                    (JVal.int idx)]).length = store.length + 1 := by
                simp
              refine ⟨by simp [ihlen], ?_, ?_, ?_⟩
              · simp only [List.length_cons, ihstlen, hstorelen]
                omega
              · intro r hr
                rw [ihframe r (by omega)]
                exact Store.getBag_append_left _ _ _ hr
              · intro i hi
                cases i with
                | zero =>
                    constructor
                    · simp [List.getD]
                    · simp only [Nat.add_zero]
                      rw [ihframe store.length (by simp),
                        Store.getBag_concat_length]
                      simp
                | succ j =>
                    have hj : j < rest.length := by
                      simpa using hi
                    obtain ⟨href, hbag⟩ := ihitem j hj
                    constructor
                    · rw [List.getD_cons_succ, href, hstorelen]
                      omega
                    · have hidxeq : store.length + (j + 1)
                          = (store ++ [dSet shared "index_of_image_in_batch"
                              (JVal.int idx)]).length + j := by
                        rw [hstorelen]; omega
                      rw [hidxeq, hbag]
                      have harith : ((idx + 1 : Nat) : Int) + (j : Int)
                          = (idx : Int) + ((j + 1 : Nat) : Int) := by
                        push_cast; ring
                      rw [harith]

/-- C5: on a successful _generate_images call whose response carries N
predictions, exactly N GeneratedImages are returned, in response order;
the i-th item's bag is the shared bag of the call extended with
index_of_image_in_batch = i, so prompt and number_of_images_in_batch
are identical across items; the items' bag references are pairwise
distinct, so mutating one item's bag leaves every other item's bag
unchanged. -/
theorem claim_C5_batch (fetch : Fetcher) (a : GenArgs) (store : Store)
    (preds : List Prediction) (gis : List GeneratedImage) (st2 : Store)
    (h : generateImagesCore fetch a store preds = .ok (gis, st2)) :
    gis.length = preds.length
    ∧ (∀ i, i < preds.length →
        Store.getBag st2 (gis.getD i wGen0).bagRef
          = dSet (buildGenRequest fetch a).2.2 "index_of_image_in_batch"
              (JVal.int i))
    ∧ (∀ i j, i < preds.length → j < preds.length →
        dGet (Store.getBag st2 (gis.getD i wGen0).bagRef) "prompt"
          = dGet (Store.getBag st2 (gis.getD j wGen0).bagRef) "prompt"
        ∧ dGet (Store.getBag st2 (gis.getD i wGen0).bagRef)
            "number_of_images_in_batch"
          = dGet (Store.getBag st2 (gis.getD j wGen0).bagRef)
              "number_of_images_in_batch")
    ∧ (∀ i j, i < preds.length → j < preds.length → i ≠ j →
        (gis.getD i wGen0).bagRef ≠ (gis.getD j wGen0).bagRef)
    ∧ (∀ i j b2, i < preds.length → j < preds.length → i ≠ j →
        Store.getBag (Store.setBag st2 (gis.getD i wGen0).bagRef b2)
          ((gis.getD j wGen0).bagRef)
          = Store.getBag st2 ((gis.getD j wGen0).bagRef)) := by
  have h' : decodeGenPredictions (buildGenRequest fetch a).2.2 0 preds
      store = .ok (gis, st2) := h
  obtain ⟨hlen, hstlen, hframe, hitem⟩ :=
    decodeGenPredictions_spec (buildGenRequest fetch a).2.2 preds 0 store
      gis st2 h'
  have hbag : ∀ i, i < preds.length →
      Store.getBag st2 (gis.getD i wGen0).bagRef
        = dSet (buildGenRequest fetch a).2.2 "index_of_image_in_batch"
            (JVal.int i) := by
    intro i hi
    obtain ⟨href, hb⟩ := hitem i hi
    rw [href, hb]
    simp
  refine ⟨hlen, hbag, ?_, ?_, ?_⟩
  · intro i j hi hj
    rw [hbag i hi, hbag j hj]
    constructor <;>
      rw [dGet_dSet_ne _ _ _ _ (by decide), dGet_dSet_ne _ _ _ _ (by decide)]
  · intro i j hi hj hne
    rw [(hitem i hi).1, (hitem j hj).1]
    omega
  · intro i j b2 hi hj hne
    exact Store.getBag_setBag_ne _ _ _ _ (by
      rw [(hitem i hi).1, (hitem j hj).1]; omega)

/-- Witness for C5 at a concrete call: three predictions yield three
images with bags indexed 0, 1, 2 over the shared bag, and distinct bag
references. -/
theorem claim_C5_witness :
    [wGenOut 0, wGenOut 1, wGenOut 2].length = [wPred, wPred, wPred].length
    ∧ Store.getBag [wBag3 0, wBag3 1, wBag3 2]
        (([wGenOut 0, wGenOut 1, wGenOut 2].getD 1 wGen0)).bagRef
      = dSet (buildGenRequest (fun _ => [])
          { prompt := "x", number_of_images := 3 }).2.2
          "index_of_image_in_batch" (JVal.int 1)
    ∧ ([wGenOut 0, wGenOut 1, wGenOut 2].getD 0 wGen0).bagRef
      ≠ ([wGenOut 0, wGenOut 1, wGenOut 2].getD 1 wGen0).bagRef :=
  ⟨(claim_C5_batch (fun _ => []) { prompt := "x", number_of_images := 3 }
      [] [wPred, wPred, wPred] [wGenOut 0, wGenOut 1, wGenOut 2]
      [wBag3 0, wBag3 1, wBag3 2] rfl).1,
   (claim_C5_batch (fun _ => []) { prompt := "x", number_of_images := 3 }
      [] [wPred, wPred, wPred] [wGenOut 0, wGenOut 1, wGenOut 2]
      [wBag3 0, wBag3 1, wBag3 2] rfl).2.1 1 (by decide),
   (claim_C5_batch (fun _ => []) { prompt := "x", number_of_images := 3 }
      [] [wPred, wPred, wPred] [wGenOut 0, wGenOut 1, wGenOut 2]
      [wBag3 0, wBag3 1, wBag3 2] rfl).2.2.2.1 0 1 (by decide) (by decide)
      (by decide)⟩

end VisionModels
